import Mathlib

/-!
ec2-killer: a shallow embedding of `main.go` and `pkg/config/config.go`

The program lists the EC2 instances of one VPC / security group page by page,
keeps the ids of those that have been running for longer than a configured
maximum life, reports them to Slack, terminates them and reports again.

Modelling conventions

* Go `string` is `String`; a Go `error` is identified with its `Error()` text.
* `time.Time` is an integer number of nanoseconds on the wall clock,
  `time.Duration` an integer number of nanoseconds; `Time.Sub` saturates at the
  `int64` range the way the Go standard library does.
* Pointer fields of the AWS SDK records that the code dereferences without a
  nil check (`InstanceId`, `LaunchTime`, `PreviousState`, `CurrentState`) are
  fields of the record: the provider is taken to populate them.
* Collaborators (EC2 API, Slack, the clock, the process environment) are
  functions held in a `World`; what the program does to them is recorded in a
  trace of `Event`s.
* The `for { ... }` pagination loop has no bound in the source; the model takes
  a fuel argument (number of loop iterations allowed) and answers `none` when it
  runs out.
-/

namespace Ec2Killer

/-! ## Go runtime values -/

/-- A Go `error` value, identified with the text its `Error()` method returns. -/
abbrev Error := String

/-- Equality of Go results `(value, error)` is decidable. -/
instance decEqExcept {ε α : Type} [DecidableEq ε] [DecidableEq α] : DecidableEq (Except ε α)
  | .ok a, .ok b =>
    if h : a = b then isTrue (by rw [h]) else isFalse (by intro h2; cases h2; exact h rfl)
  | .error a, .error b =>
    if h : a = b then isTrue (by rw [h]) else isFalse (by intro h2; cases h2; exact h rfl)
  | .ok _, .error _ => isFalse (by intro h; cases h)
  | .error _, .ok _ => isFalse (by intro h; cases h)

/-- Smallest `time.Duration` (`math.MinInt64` nanoseconds). -/
def minDuration : Int := -(2 ^ 63)

/-- Largest `time.Duration` (`math.MaxInt64` nanoseconds). -/
def maxDuration : Int := 2 ^ 63 - 1

/-- Go `t.Sub(u)`: the duration `t - u`, replaced by the largest (smallest)
duration when it does not fit in an `int64`. -/
def Sub (t u : Int) : Int :=
  if t - u > maxDuration then maxDuration
  else if t - u < minDuration then minDuration
  else t - u

/-- Go `time.Since(t)` evaluated when the clock reads `now`: `now.Sub(t)`. -/
def Since (now t : Int) : Int := Sub now t

/-! ## AWS SDK records (the fields the program touches) -/

/-- The SDK record `types.Instance`. -/
structure Instance where
  InstanceId : String
  LaunchTime : Int
  deriving DecidableEq, Repr

/-- The SDK record `types.Reservation`. -/
structure Reservation where
  Instances : List Instance
  deriving DecidableEq, Repr

/-- The SDK record `types.Filter`. -/
structure Filter where
  Name : String
  Values : List String
  deriving DecidableEq, Repr

/-- The SDK record `ec2.DescribeInstancesInput`. -/
structure DescribeInstancesInput where
  NextToken : Option String
  Filters : List Filter
  deriving DecidableEq, Repr

/-- The SDK record `ec2.DescribeInstancesOutput`. -/
structure DescribeInstancesOutput where
  Reservations : List Reservation
  NextToken : Option String
  deriving DecidableEq, Repr

/-- The SDK record `types.InstanceStateChange`, with the state names the
program prints. -/
structure InstanceStateChange where
  InstanceId : String
  PreviousState : String
  CurrentState : String
  deriving DecidableEq, Repr

/-- The SDK record `ec2.TerminateInstancesOutput`. -/
structure TerminateInstancesOutput where
  TerminatingInstances : List InstanceStateChange
  deriving DecidableEq, Repr

/-- An `*ec2.Client` as the program uses it: the two API operations, each
answering a request with an output or an error. -/
structure Ec2Client where
  DescribeInstances : DescribeInstancesInput → Except Error DescribeInstancesOutput
  TerminateInstances : List String → Except Error TerminateInstancesOutput

/-- What the program does to the outside, in order. A `log` event carries the
formatted message of a `log.Printf` or `log.Fatalf` call, without the timestamp
the logger puts in front of it. -/
inductive Event where
  | log (text : String)
  | describeInstances (input : DescribeInstancesInput)
  | terminateInstances (instanceIds : List String)
  | slackSendMessage (token channel message : String)
  deriving DecidableEq, Repr

/-- A Go result pair `([]string, error)`; `ids = none` is the nil slice and
`err = none` the nil error. -/
structure IdsResult where
  ids : Option (List String)
  err : Option Error
  deriving DecidableEq, Repr

/-! ## `main.go`: GetIdsOfInstancesToTerminate -/

/-- The `DescribeInstancesInput` built at the top of every loop iteration
(`main.go` lines 72-97). -/
def describeInput (vpcId securityGroupId : String) (nextToken : Option String) :
    DescribeInstancesInput :=
  { NextToken := nextToken
    Filters :=
      [ { Name := "instance-state-name"
          Values := ["running", "pending", "stopping", "stopped"] },
        { Name := "vpc-id", Values := [vpcId] },
        { Name := "instance.group-id", Values := [securityGroupId] } ] }

/-- The inner loop `for _, instance := range reservation.Instances`
(`main.go` lines 105-111). `now k` is what the clock reads at the `k`-th call
of `time.Since` of the run; `tick` counts the calls made so far. -/
def scanInstances (now : Nat → Int) (maxLife : Int) :
    List Instance → Nat → List String → Nat × List String
  | [], tick, instanceIds => (tick, instanceIds)
  | inst :: rest, tick, instanceIds =>
    let instanceRunningDuration := Since (now tick) inst.LaunchTime
    if instanceRunningDuration > maxLife then
      scanInstances now maxLife rest (tick + 1) (instanceIds ++ [inst.InstanceId])
    else
      scanInstances now maxLife rest (tick + 1) instanceIds

/-- The outer loop `for _, reservation := range output.Reservations`
(`main.go` lines 104-112). -/
def scanReservations (now : Nat → Int) (maxLife : Int) :
    List Reservation → Nat → List String → Nat × List String
  | [], tick, instanceIds => (tick, instanceIds)
  | reservation :: rest, tick, instanceIds =>
    let s := scanInstances now maxLife reservation.Instances tick instanceIds
    scanReservations now maxLife rest s.1 s.2

/-- What one call of `GetIdsOfInstancesToTerminate` amounts to: the returned
pair, the `DescribeInstances` requests issued in order, and the number of
clock readings taken. -/
structure SelectorRun where
  result : IdsResult
  calls : List DescribeInstancesInput
  ticks : Nat
  deriving DecidableEq, Repr

/-- The pagination loop `for { ... }` of `GetIdsOfInstancesToTerminate`
(`main.go` lines 71-118) followed by the final `return` (line 120), started
with the given `nextToken`, accumulated `instanceIds`, clock-reading count and
requests issued so far. Each unit of fuel pays for one iteration. -/
def selectLoop (client : Ec2Client) (now : Nat → Int) (vpcId securityGroupId : String)
    (maxLife : Int) :
    Nat → Option String → List String → Nat → List DescribeInstancesInput →
      Option SelectorRun
  | 0, _, _, _, _ => none
  | fuel + 1, nextToken, instanceIds, tick, calls =>
    let input := describeInput vpcId securityGroupId nextToken
    match client.DescribeInstances input with
    | .error err =>
      some { result := { ids := none, err := some err }, calls := calls ++ [input], ticks := tick }
    | .ok output =>
      let s := scanReservations now maxLife output.Reservations tick instanceIds
      match output.NextToken with
      | none =>
        some { result := { ids := some s.2, err := none }, calls := calls ++ [input], ticks := s.1 }
      | some t =>
        selectLoop client now vpcId securityGroupId maxLife fuel (some t) s.2 s.1
          (calls ++ [input])

/-- Go `GetIdsOfInstancesToTerminate` (`main.go` lines 67-121). -/
def GetIdsOfInstancesToTerminate (client : Ec2Client) (now : Nat → Int)
    (vpcId securityGroupId : String) (maxLife : Int) (fuel : Nat) : Option SelectorRun :=
  selectLoop client now vpcId securityGroupId maxLife fuel none [] 0 []

/-! ## Go standard library: `time.ParseDuration`

`config.go` hands the max-life setting to `time.ParseDuration`. The parser is
transcribed from the Go standard library (`time/format.go`); the one
floating-point expression in it is a parameter of the model. -/

/-- The value `uint64(float64(f) * (float64(unit) / scale))` that
`time.ParseDuration` adds for a fractional part `f / scale` of a component with
the given unit, as a function of `f`, `unit` and `scale`. -/
abbrev FracNanos := Nat → Nat → Nat → Nat

/-- The IEEE 754 binary64 value nearest to the positive rational `n / d`, ties
to even, as a pair `(m, e)` standing for `m * 2 ^ e` with a 53-bit `m`. The
quantities `time.ParseDuration` computes stay far inside the normal range, so
neither subnormals nor infinities arise. -/
def roundFloat64 (n d : Nat) : Nat × Int :=
  let t : Int := (Nat.log2 n : Int) - (Nat.log2 d : Int)
  let ge : Bool :=
    if t ≥ 0 then decide (n ≥ d * 2 ^ t.toNat) else decide (n * 2 ^ (-t).toNat ≥ d)
  let e : Int := (if ge then t else t - 1) - 52
  let num : Nat := if e ≥ 0 then n else n * 2 ^ (-e).toNat
  let den : Nat := if e ≥ 0 then d * 2 ^ e.toNat else d
  let m := num / den
  let r := num % den
  (if 2 * r > den ∨ (2 * r = den ∧ m % 2 = 1) then m + 1 else m, e)

/-- The Go expression `uint64(float64(f) * (float64(unit) / scale))` of
`time.ParseDuration` in binary64 arithmetic: both conversions, the quotient and
the product are rounded to nearest, and the conversion to `uint64` truncates.
`unit` and `scale` (a power of ten up to `10 ^ 19`) are exact as `float64`. -/
def float64FracNanos : FracNanos := fun f unit scale =>
  if f = 0 ∨ unit = 0 ∨ scale = 0 then 0
  else
    let a := roundFloat64 f 1
    let q := roundFloat64 unit scale
    let e : Int := a.2 + q.2
    let p :=
      if e ≥ 0 then roundFloat64 (a.1 * q.1 * 2 ^ e.toNat) 1
      else roundFloat64 (a.1 * q.1) (2 ^ (-e).toNat)
    if p.2 ≥ 0 then p.1 * 2 ^ p.2.toNat else p.1 / 2 ^ (-p.2).toNat

/-- Go `lowerhex[n]` for a nibble `n`. -/
def lowerhex (n : Nat) : Char :=
  "0123456789abcdef".data.getD n '0'

/-- The bytes `quote` writes for one rune of its argument. -/
def quoteRune (c : Char) : List Char :=
  if c.toNat ≥ 128 ∨ c < ' ' then
    (String.utf8EncodeChar c).flatMap fun b =>
      ['\\', 'x', lowerhex (b.toNat / 16), lowerhex (b.toNat % 16)]
  else if c = '"' ∨ c = '\\' then ['\\', c]
  else [c]

/-- Go `time.quote`: the argument between double quotes, with quotes and
backslashes escaped and non-printable or non-ASCII bytes written `\xNN`. -/
def quote (s : String) : String :=
  String.mk (['"'] ++ s.data.flatMap quoteRune ++ ['"'])

/-- Go `time.leadingInt`: the leading decimal digits of the input as a number
and the rest of the input; `none` is `errLeadingInt` (the number passed
`1<<63`). -/
def leadingInt : List Char → Nat → Option (Nat × List Char)
  | [], x => some (x, [])
  | c :: rest, x =>
    if c < '0' ∨ c > '9' then some (x, c :: rest)
    else if x > 2 ^ 63 / 10 then none
    else if x * 10 + c.toNat - '0'.toNat > 2 ^ 63 then none
    else leadingInt rest (x * 10 + c.toNat - '0'.toNat)

/-- Go `time.leadingFraction`: the leading decimal digits as a number `x` with
the matching power of ten `scale`, and the rest of the input; digits that would
overflow are skipped. -/
def leadingFraction : List Char → Nat → Nat → Bool → Nat × Nat × List Char
  | [], x, scale, _ => (x, scale, [])
  | c :: rest, x, scale, overflow =>
    if c < '0' ∨ c > '9' then (x, scale, c :: rest)
    else if overflow then leadingFraction rest x scale overflow
    else if x > (2 ^ 63 - 1) / 10 then leadingFraction rest x scale true
    else if x * 10 + c.toNat - '0'.toNat > 2 ^ 63 then leadingFraction rest x scale true
    else leadingFraction rest (x * 10 + c.toNat - '0'.toNat) (scale * 10) false

/-- Go `time.unitMap`: nanoseconds per unit. -/
def unitMap (u : String) : Option Nat :=
  if u = "ns" then some 1
  else if u = "us" then some 1000
  else if u = "µs" then some 1000
  else if u = "μs" then some 1000
  else if u = "ms" then some 1000000
  else if u = "s" then some 1000000000
  else if u = "m" then some 60000000000
  else if u = "h" then some 3600000000000
  else none

/-- Whether a byte ends the unit of a duration component: `.` or a digit. -/
def endsUnit (c : Char) : Bool := c = '.' ∨ ('0' ≤ c ∧ c ≤ '9')

/-- One iteration of the `for s != ""` loop of `time.ParseDuration` up to and
including the overflow check on `v`: parses a component `[0-9]*(\.[0-9]*)?unit`
off the front of a non-empty input and answers its value in nanoseconds
together with the rest of the input. -/
def parseComponent (fracNanos : FracNanos) (orig : String) (s : List Char) :
    Except Error (Nat × List Char) :=
  if !(endsUnit (s.headD 'x')) then .error ("time: invalid duration " ++ quote orig)
  else
    match leadingInt s 0 with
    | none => .error ("time: invalid duration " ++ quote orig)
    | some (v, s1) =>
      let pre := s.length != s1.length
      let frac : Nat × Nat × List Char :=
        match s1 with
        | '.' :: s1' => leadingFraction s1' 0 1 false
        | _ => (0, 1, s1)
      let post :=
        match s1 with
        | '.' :: s1' => s1'.length != frac.2.2.length
        | _ => false
      let f := frac.1
      let scale := frac.2.1
      let s2 := frac.2.2
      if !pre && !post then .error ("time: invalid duration " ++ quote orig)
      else
        let u := s2.takeWhile fun c => !(endsUnit c)
        let s3 := s2.dropWhile fun c => !(endsUnit c)
        if u.length = 0 then .error ("time: missing unit in duration " ++ quote orig)
        else
          match unitMap (String.mk u) with
          | none =>
            .error ("time: unknown unit " ++ quote (String.mk u) ++ " in duration " ++ quote orig)
          | some unit =>
            if v > 2 ^ 63 / unit then .error ("time: invalid duration " ++ quote orig)
            else if f > 0 then
              if (v * unit + fracNanos f unit scale) % 2 ^ 64 > 2 ^ 63 then
                .error ("time: invalid duration " ++ quote orig)
              else .ok ((v * unit + fracNanos f unit scale) % 2 ^ 64, s3)
            else .ok (v * unit, s3)

/-- The `for s != ""` loop of `time.ParseDuration`, summing the components
into the `uint64` accumulator `d`. Every iteration consumes input, so fuel
equal to the length of the input is enough (`parseComponents_fuel`). -/
def parseComponents (fracNanos : FracNanos) (orig : String) :
    Nat → List Char → Nat → Option (Except Error Nat)
  | _, [], d => some (.ok d)
  | 0, _ :: _, _ => none
  | fuel + 1, c :: s, d =>
    match parseComponent fracNanos orig (c :: s) with
    | .error e => some (.error e)
    | .ok (v, rest) =>
      if (d + v) % 2 ^ 64 > 2 ^ 63 then some (.error ("time: invalid duration " ++ quote orig))
      else parseComponents fracNanos orig fuel rest ((d + v) % 2 ^ 64)

/-- The sign prefix `[-+]?` of a duration: whether it is `-`, and the rest. -/
def splitSign : List Char → Bool × List Char
  | '-' :: rest => (true, rest)
  | '+' :: rest => (false, rest)
  | s => (false, s)

/-- Go `time.ParseDuration`; the result is in nanoseconds. The `none` branch
of the match is never taken (`parseComponents_fuel`). -/
def ParseDuration (fracNanos : FracNanos) (s : String) : Except Error Int :=
  let neg := (splitSign s.data).1
  let body := (splitSign s.data).2
  if body = ['0'] then .ok 0
  else if body = [] then .error ("time: invalid duration " ++ quote s)
  else
    match parseComponents fracNanos s body.length body 0 with
    | none => .error ("time: invalid duration " ++ quote s)
    | some (.error e) => .error e
    | some (.ok d) =>
      if neg then .ok (-(d : Int))
      else if d > 2 ^ 63 - 1 then .error ("time: invalid duration " ++ quote s)
      else .ok (d : Int)

/-! ## `pkg/config/config.go` -/

def SECURITY_GROUP_ID_ENV_VAR : String := "SECURITY_GROUP_ID"
def VPC_ID_ENV_VAR : String := "VPC_ID"
def EC2_INSTANCE_MAX_LIFE_ENV_VAR : String := "EC2_INSTANCE_MAX_LIFE"
def DEFAULT_EC2_INSTANCE_MAX_LIFE : String := "30m"
def AWS_REGION_ENV_VAR : String := "AWS_REGION"
def AWS_ACCESS_KEY_ID_ENV_VAR : String := "AWS_ACCESS_KEY_ID"
def AWS_SECRET_ACCESS_KEY_ENV_VAR : String := "AWS_SECRET_ACCESS_KEY"
def ENVIRONMENT_NAME_ENV_VAR : String := "ENVIRONMENT_NAME"
def DEFAULT_ENVIRONMENT_NAME : String := "Production"
def SLACK_TOKEN_ENV_VAR : String := "SLACK_TOKEN"
def SLACK_CHANNEL_ENV_VAR : String := "SLACK_CHANNEL"

/-- The process environment as `os.LookupEnv` sees it: `none` for an unset
variable, `some v` for a variable set to `v` (which may be empty). -/
abbrev Env := String → Option String

/-- The Go struct `config.Config`. -/
structure Config where
  awsRegion : String
  awsAccessKeyId : String
  awsSecretAccessKey : String
  environmentName : String
  slackToken : String
  slackChannel : String
  ec2InstanceMaxLife : Int
  vpcId : String
  securityGroupId : String
  deriving DecidableEq, Repr

/-- The error of the getters whose message reads "value is a required value". -/
def requiredValueError (name : String) : Error :=
  name ++ " environment variable value is a required value. Please define it"

/-- The error of the getters whose message reads "is not defined and is
required". -/
def notDefinedError (name : String) : Error :=
  name ++ " environment variable is not defined and is required. Please define it"

/-- Go `getVpcId`. -/
def getVpcId (env : Env) : Except Error String :=
  match env VPC_ID_ENV_VAR with
  | none => .error (requiredValueError VPC_ID_ENV_VAR)
  | some vpcId => .ok vpcId

/-- Go `getSecurityGroupId`. -/
def getSecurityGroupId (env : Env) : Except Error String :=
  match env SECURITY_GROUP_ID_ENV_VAR with
  | none => .error (requiredValueError SECURITY_GROUP_ID_ENV_VAR)
  | some securityGroupId => .ok securityGroupId

/-- Go `getEc2InstanceMaxLife`. -/
def getEc2InstanceMaxLife (fracNanos : FracNanos) (env : Env) : Except Error Int :=
  let maxLifeStr :=
    match env EC2_INSTANCE_MAX_LIFE_ENV_VAR with
    | none => DEFAULT_EC2_INSTANCE_MAX_LIFE
    | some v => v
  match ParseDuration fracNanos maxLifeStr with
  | .error err =>
    .error ("error occurred while parsing ec2 instance max life value " ++ maxLifeStr ++ ": " ++ err)
  | .ok maxLife => .ok maxLife

/-- Go `getAwsRegion`. -/
def getAwsRegion (env : Env) : Except Error String :=
  match env AWS_REGION_ENV_VAR with
  | none => .error (requiredValueError AWS_REGION_ENV_VAR)
  | some awsRegion => .ok awsRegion

/-- Go `getAwsAccessKeyId`. -/
def getAwsAccessKeyId (env : Env) : Except Error String :=
  match env AWS_ACCESS_KEY_ID_ENV_VAR with
  | none => .error (requiredValueError AWS_ACCESS_KEY_ID_ENV_VAR)
  | some awsAccessKeyId => .ok awsAccessKeyId

/-- Go `getAwsSecretAccessKey`. -/
def getAwsSecretAccessKey (env : Env) : Except Error String :=
  match env AWS_SECRET_ACCESS_KEY_ENV_VAR with
  | none => .error (requiredValueError AWS_SECRET_ACCESS_KEY_ENV_VAR)
  | some awsSecretAccessKey => .ok awsSecretAccessKey

/-- Go `getEnvironmentName`. -/
def getEnvironmentName (env : Env) : String :=
  match env ENVIRONMENT_NAME_ENV_VAR with
  | none => DEFAULT_ENVIRONMENT_NAME
  | some environmentName => environmentName

/-- Go `getSlackToken`. -/
def getSlackToken (env : Env) : Except Error String :=
  match env SLACK_TOKEN_ENV_VAR with
  | none => .error (notDefinedError SLACK_TOKEN_ENV_VAR)
  | some slackToken => .ok slackToken

/-- Go `getSlackChannel`. -/
def getSlackChannel (env : Env) : Except Error String :=
  match env SLACK_CHANNEL_ENV_VAR with
  | none => .error (notDefinedError SLACK_CHANNEL_ENV_VAR)
  | some slackChannel => .ok slackChannel

/-- Go `NewConfigFromEnvVars`: `.error e` is the Go result `(nil, e)`. -/
def NewConfigFromEnvVars (fracNanos : FracNanos) (env : Env) : Except Error Config :=
  match getAwsRegion env with
  | .error err => .error ("error occurred while getting AWS Region: " ++ err)
  | .ok awsRegion =>
  match getAwsAccessKeyId env with
  | .error err => .error ("error occurred while getting AWS Access Key ID: " ++ err)
  | .ok awsAccessKeyId =>
  match getAwsSecretAccessKey env with
  | .error err => .error ("error occurred while getting AWS Secret Access Key: " ++ err)
  | .ok awsSecretAccessKey =>
  let environmentName := getEnvironmentName env
  match getSlackToken env with
  | .error err => .error ("error occurred while getting slack token: " ++ err)
  | .ok slackToken =>
  match getSlackChannel env with
  | .error err => .error ("error occurred while getting slack channel: " ++ err)
  | .ok slackChannel =>
  match getVpcId env with
  | .error err => .error ("error occurred while getting vpc id: " ++ err)
  | .ok vpcId =>
  match getSecurityGroupId env with
  | .error err => .error ("error occurred while getting security group id: " ++ err)
  | .ok securityGroupId =>
  match getEc2InstanceMaxLife fracNanos env with
  | .error err => .error ("error occurred while getting ec2 instance max life: " ++ err)
  | .ok ec2InstanceMaxLife =>
    .ok
      { awsRegion := awsRegion
        awsAccessKeyId := awsAccessKeyId
        awsSecretAccessKey := awsSecretAccessKey
        environmentName := environmentName
        slackToken := slackToken
        slackChannel := slackChannel
        ec2InstanceMaxLife := ec2InstanceMaxLife
        vpcId := vpcId
        securityGroupId := securityGroupId }

/-- Go `(*Config).GetEnvironmentName`. -/
def Config.GetEnvironmentName (c : Config) : String := c.environmentName

/-- Go `(*Config).GetSlackToken`. -/
def Config.GetSlackToken (c : Config) : String := c.slackToken

/-- Go `(*Config).GetSlackChannel`. -/
def Config.GetSlackChannel (c : Config) : String := c.slackChannel

/-- Go `(*Config).GetEc2InstanceMaxLife`. -/
def Config.GetEc2InstanceMaxLife (c : Config) : Int := c.ec2InstanceMaxLife

/-- Go `(*Config).GetVpcId`. -/
def Config.GetVpcId (c : Config) : String := c.vpcId

/-- Go `(*Config).GetSecurityGroupId`. -/
def Config.GetSecurityGroupId (c : Config) : String := c.securityGroupId

/-! ## `main.go`: TerminateInstances, logAndExit, main -/

/-- Go `fmt.Sprintf("%v", ids)` for a `[]string`: the elements separated by
single spaces, between square brackets. -/
def fmtStrings (ids : List String) : String :=
  "[" ++ " ".intercalate ids ++ "]"

/-- The at-risk notification text for the given ids (`main.go` line 46). -/
def atRiskMessage (instanceIds : List String) : String :=
  "Instance IDs of running instances are: " ++ fmtStrings instanceIds

/-- The terminated-ids notification text for the given ids (`main.go` line 59). -/
def terminatedMessage (instanceIds : List String) : String :=
  "Instance IDs of terminated instances are: " ++ fmtStrings instanceIds

/-- What one call of `TerminateInstances` amounts to: the returned pair and
what it did (the termination request, then one log line per record). -/
structure TerminatorRun where
  result : IdsResult
  events : List Event
  deriving DecidableEq, Repr

/-- The line `TerminateInstances` logs for one state-change record
(`main.go` line 135). -/
def stateChangeLogLine (instanceStateChange : InstanceStateChange) : String :=
  "\nInstance Id: " ++ instanceStateChange.InstanceId ++ ". Previous State: "
    ++ instanceStateChange.PreviousState ++ ". Current State: "
    ++ instanceStateChange.CurrentState

/-- The loop `for _, instanceStateChange := range output.TerminatingInstances`
(`main.go` lines 134-137): logs each record and appends its id. -/
def collectTerminated :
    List InstanceStateChange → List String → List Event → List String × List Event
  | [], terminatedInstanceIds, events => (terminatedInstanceIds, events)
  | instanceStateChange :: rest, terminatedInstanceIds, events =>
    collectTerminated rest (terminatedInstanceIds ++ [instanceStateChange.InstanceId])
      (events ++ [Event.log (stateChangeLogLine instanceStateChange)])

/-- Go `TerminateInstances` (`main.go` lines 123-140). -/
def TerminateInstances (client : Ec2Client) (instanceIds : List String) : TerminatorRun :=
  match client.TerminateInstances instanceIds with
  | .error err =>
    { result := { ids := none, err := some err }
      events := [Event.terminateInstances instanceIds] }
  | .ok output =>
    let r := collectTerminated output.TerminatingInstances [] [Event.terminateInstances instanceIds]
    { result := { ids := some r.1, err := none }, events := r.2 }

/-- Everything outside the program that a run depends on. `slack.SendMessage`
(package `pkg/slack`) and `awsconf.LoadDefaultConfig` are collaborators whose
code is not part of `main.go`; only their results enter the run, so they are
fields here. `SendMessage n token channel message` is the error returned by the
`slack.SendMessage` call made after `n` earlier ones (`none` is the nil error);
`now k` is the clock reading of the `k`-th `time.Since`; `LoadDefaultConfig` is
the error of `awsconf.LoadDefaultConfig`, if any; `ec2Client` is the client
`ec2.NewFromConfig` builds. -/
structure World where
  version : String
  env : Env
  fracNanos : FracNanos
  LoadDefaultConfig : Option Error
  ec2Client : Ec2Client
  now : Nat → Int
  SendMessage : Nat → String → String → String → Option Error

/-- A finished run of the process: what it did, and its exit status. -/
structure Run where
  trace : List Event
  exitCode : Nat
  deriving DecidableEq, Repr

/-- The text of the escalation message `logAndExit` composes. -/
def escalationMessage (errorContext : String) (err : Error) (c : Config) : String :=
  "Critical :rotating_light:! An error occured in ec2-killer bot in " ++ c.GetEnvironmentName
    ++ " environment :rotating_light: : ```\n" ++ errorContext ++ ": " ++ err ++ "\n```"

/-- A `slack.SendMessage` call followed by the `if slackErr != nil` log line:
`sent` is the number of `slack.SendMessage` calls made before this one. -/
def sendAndLog (w : World) (sent : Nat) (c : Config) (message : String) : List Event :=
  Event.slackSendMessage c.GetSlackToken c.GetSlackChannel message ::
    match w.SendMessage sent c.GetSlackToken c.GetSlackChannel message with
    | some slackErr => [Event.log ("\nerror occurred while sending message to slack: " ++ slackErr)]
    | none => []

/-- Go `logAndExit` (`main.go` lines 142-149), continuing the given trace; the
closing `log.Fatalf` logs and ends the process with status 1. -/
def logAndExit (w : World) (sent : Nat) (trace : List Event) (errorContext : String)
    (err : Error) (c : Config) : Run :=
  { trace := trace ++ sendAndLog w sent c (escalationMessage errorContext err c)
      ++ [Event.log ("\n" ++ errorContext ++ ": " ++ err)]
    exitCode := 1 }

/-- The body of `if len(instanceIds) > 0 { ... }` in `main` (`main.go` lines
46-63), continuing the given trace. -/
def reportAndTerminate (w : World) (c : Config) (trace : List Event)
    (instanceIds : List String) : Run :=
  let t1 := trace ++ sendAndLog w 0 c (atRiskMessage instanceIds)
  let term := TerminateInstances w.ec2Client instanceIds
  let t2 := t1 ++ term.events
  match term.result.err with
  | some err => logAndExit w 1 t2 "Couldn't terminate instances" err c
  | none =>
    { trace := t2 ++ sendAndLog w 1 c (terminatedMessage (term.result.ids.getD []))
      exitCode := 0 }

/-- Go `main` from line 43 on, once `GetIdsOfInstancesToTerminate` has
returned `instanceIds` with a nil error. A nil slice has length 0 and prints
as `[]`, like the empty one. -/
def afterSelection (w : World) (c : Config) (trace : List Event)
    (instanceIds : Option (List String)) : Run :=
  let t1 := trace ++
    [Event.log ("\nInstance IDs of running instances are: " ++ fmtStrings (instanceIds.getD []))]
  if (instanceIds.getD []).length > 0 then
    reportAndTerminate w c t1 (instanceIds.getD [])
  else
    { trace := t1, exitCode := 0 }

/-- Go `main` (`main.go` lines 22-65). `none` means the pagination loop did
not finish within `fuel` iterations. -/
def main (w : World) (fuel : Nat) : Option Run :=
  let t0 := [Event.log ("version: " ++ w.version)]
  match NewConfigFromEnvVars w.fracNanos w.env with
  | .error err =>
    some
      { trace := t0 ++
          [Event.log ("\nerror occurred while getting configuration from environment variables: "
            ++ err)]
        exitCode := 1 }
  | .ok c =>
    match w.LoadDefaultConfig with
    | some err => some (logAndExit w 0 t0 "error occurred while loading aws configuration" err c)
    | none =>
      match GetIdsOfInstancesToTerminate w.ec2Client w.now c.GetVpcId c.GetSecurityGroupId
          c.GetEc2InstanceMaxLife fuel with
      | none => none
      | some sel =>
        let t1 := t0 ++ sel.calls.map Event.describeInstances
        match sel.result.err with
        | some err => some (logAndExit w 0 t1 "Couldn't retrieve running instances" err c)
        | none => some (afterSelection w c t1 sel.result.ids)

/-! ## The selection, as the specification words it -/

/-- The instances of a sequence of pages in delivery order: page by page,
reservation by reservation, instance by instance. -/
def instancesOf (pages : List DescribeInstancesOutput) : List Instance :=
  pages.flatMap fun page => page.Reservations.flatMap fun reservation => reservation.Instances

/-- The ids of the instances of `l` whose running duration exceeds `maxLife`,
in the order of `l`; the instance at position `i` of `l` is the `(k + i)`-th
one examined in the run, at clock reading `now (k + i)`. -/
def selectedFrom (now : Nat → Int) (maxLife : Int) (k : Nat) (l : List Instance) :
    List String :=
  ((l.enumFrom k).filter fun p => decide (Since (now p.1) p.2.LaunchTime > maxLife)).map
    fun p => p.2.InstanceId

/-- The ids the specification asks of the selector for the examined instances
`l`: those with `now - launchTime > maxLife`, in order. -/
def selectedIds (now : Nat → Int) (maxLife : Int) (l : List Instance) : List String :=
  selectedFrom now maxLife 0 l

/-- The provider answers the pagination that starts with the token `tok` by
exactly the pages `pages`, in order: every request succeeds, every page but the
last carries a next token (which the following request presents), and the last
page carries none. -/
def Delivers (client : Ec2Client) (vpcId securityGroupId : String) :
    Option String → List DescribeInstancesOutput → Prop
  | _, [] => False
  | tok, [page] =>
    client.DescribeInstances (describeInput vpcId securityGroupId tok) = .ok page ∧
      page.NextToken = none
  | tok, page :: next :: rest =>
    client.DescribeInstances (describeInput vpcId securityGroupId tok) = .ok page ∧
      page.NextToken.isSome = true ∧
      Delivers client vpcId securityGroupId page.NextToken (next :: rest)

/-- The provider answers the pagination that starts with the token `tok` by
the pages `pages`, each carrying a next token, and then fails the following
request with the error `e`. -/
def FailsAfter (client : Ec2Client) (vpcId securityGroupId : String) :
    Option String → List DescribeInstancesOutput → Error → Prop
  | tok, [], e =>
    client.DescribeInstances (describeInput vpcId securityGroupId tok) = .error e
  | tok, page :: rest, e =>
    client.DescribeInstances (describeInput vpcId securityGroupId tok) = .ok page ∧
      page.NextToken.isSome = true ∧
      FailsAfter client vpcId securityGroupId page.NextToken rest e

instance decDelivers (client : Ec2Client) (vpcId securityGroupId : String) :
    (tok : Option String) → (pages : List DescribeInstancesOutput) →
      Decidable (Delivers client vpcId securityGroupId tok pages)
  | _, [] => isFalse (fun h => h)
  | tok, [page] =>
    inferInstanceAs (Decidable
      (client.DescribeInstances (describeInput vpcId securityGroupId tok) = .ok page ∧
        page.NextToken = none))
  | tok, page :: next :: rest =>
    have := decDelivers client vpcId securityGroupId page.NextToken (next :: rest)
    inferInstanceAs (Decidable
      (client.DescribeInstances (describeInput vpcId securityGroupId tok) = .ok page ∧
        page.NextToken.isSome = true ∧
        Delivers client vpcId securityGroupId page.NextToken (next :: rest)))

instance decFailsAfter (client : Ec2Client) (vpcId securityGroupId : String) :
    (tok : Option String) → (pages : List DescribeInstancesOutput) → (e : Error) →
      Decidable (FailsAfter client vpcId securityGroupId tok pages e)
  | tok, [], e =>
    inferInstanceAs (Decidable
      (client.DescribeInstances (describeInput vpcId securityGroupId tok) = .error e))
  | tok, page :: rest, e =>
    have := decFailsAfter client vpcId securityGroupId page.NextToken rest e
    inferInstanceAs (Decidable
      (client.DescribeInstances (describeInput vpcId securityGroupId tok) = .ok page ∧
        page.NextToken.isSome = true ∧
        FailsAfter client vpcId securityGroupId page.NextToken rest e))

/-- The requests a pagination starting with token `tok` issues to obtain the
pages `pages`: the first with `tok`, each later one with the next token of the
page before. -/
def requestsFor (vpcId securityGroupId : String) :
    Option String → List DescribeInstancesOutput → List DescribeInstancesInput
  | _, [] => []
  | tok, page :: rest =>
    describeInput vpcId securityGroupId tok :: requestsFor vpcId securityGroupId page.NextToken rest

/-- The token the request after the pages `pages` presents. -/
def tokenAfter : Option String → List DescribeInstancesOutput → Option String
  | tok, [] => tok
  | _, page :: rest => tokenAfter page.NextToken rest

/-! ## Reading a trace -/

/-- Whether an event is a log line. -/
def Event.isLog : Event → Bool
  | .log _ => true
  | _ => false

/-- Whether an event is a request to the EC2 API. -/
def Event.isProviderCall : Event → Bool
  | .describeInstances _ => true
  | .terminateInstances _ => true
  | _ => false

/-- The events of a trace other than log lines, in order. -/
def outward (trace : List Event) : List Event :=
  trace.filter fun e => !e.isLog

/-- The requests to the EC2 API in a trace, in order. -/
def providerCalls (trace : List Event) : List Event :=
  trace.filter fun e => e.isProviderCall

/-- The id lists of the termination requests in a trace, in order. -/
def terminationRequests (trace : List Event) : List (List String) :=
  trace.filterMap fun e =>
    match e with
    | .terminateInstances ids => some ids
    | _ => none

/-- The Slack messages of a trace, in order, each as (token, channel, text). -/
def slackMessages (trace : List Event) : List (String × String × String) :=
  trace.filterMap fun e =>
    match e with
    | .slackSendMessage token channel message => some (token, channel, message)
    | _ => none

/-- The text `message` contains the text `part`. -/
def Mentions (message part : String) : Prop :=
  List.IsInfix part.data message.data

instance decMentions (message part : String) : Decidable (Mentions message part) :=
  inferInstanceAs (Decidable (List.IsInfix part.data message.data))

/-! ## Concrete providers and clocks, used to exercise the definitions -/

/-- An instance launched at time 0. -/
def sampleInstance : Instance := { InstanceId := "i-0a1", LaunchTime := 0 }

/-- A second instance, launched at time 7. -/
def otherInstance : Instance := { InstanceId := "i-0b2", LaunchTime := 7 }

/-- A termination answer acknowledging every requested id. -/
def acknowledgeAll (ids : List String) : TerminateInstancesOutput :=
  { TerminatingInstances :=
      ids.map fun i => { InstanceId := i, PreviousState := "running", CurrentState := "shutting-down" } }

/-- First page of `repeatingClient`: `sampleInstance`, and a next token. -/
def repeatPage1 : DescribeInstancesOutput :=
  { Reservations := [{ Instances := [sampleInstance] }], NextToken := some "page-2" }

/-- Second and last page of `repeatingClient`: `sampleInstance` once more. -/
def repeatPage2 : DescribeInstancesOutput :=
  { Reservations := [{ Instances := [sampleInstance] }], NextToken := none }

/-- A provider that lists the same instance on both of its two pages. -/
def repeatingClient : Ec2Client :=
  { DescribeInstances := fun input =>
      match input.NextToken with
      | none => .ok repeatPage1
      | some _ => .ok repeatPage2
    TerminateInstances := fun ids => .ok (acknowledgeAll ids) }

/-- A clock that reads 10 at the first examination and advances by 1 at each
later one. -/
def tickingClock (k : Nat) : Int := 10 + k

/-- First page of `twoPageClient`: two reservations, and a next token. -/
def twoPage1 : DescribeInstancesOutput :=
  { Reservations := [{ Instances := [sampleInstance] }, { Instances := [otherInstance] }]
    NextToken := some "page-2" }

/-- Second and last page of `twoPageClient`. -/
def twoPage2 : DescribeInstancesOutput :=
  { Reservations := [{ Instances := [{ InstanceId := "i-0c3", LaunchTime := 1 }] }]
    NextToken := none }

/-- A provider with two pages of distinct instances. -/
def twoPageClient : Ec2Client :=
  { DescribeInstances := fun input =>
      match input.NextToken with
      | none => .ok twoPage1
      | some _ => .ok twoPage2
    TerminateInstances := fun ids => .ok (acknowledgeAll ids) }

/-- A provider whose first page succeeds with a next token and whose second
request fails. -/
def failingClient : Ec2Client :=
  { DescribeInstances := fun input =>
      match input.NextToken with
      | none => .ok twoPage1
      | some _ => .error "RequestTimeout"
    TerminateInstances := fun _ => .error "UnauthorizedOperation" }

/-- A provider whose listing is that of `twoPageClient` and whose termination
call fails. -/
def refusingClient : Ec2Client :=
  { DescribeInstances := twoPageClient.DescribeInstances
    TerminateInstances := fun _ => .error "UnauthorizedOperation" }

/-- A clock reading long after the launch of every sample instance. -/
def lateClock (k : Nat) : Int := 2000000000000 + k

/-- An environment with the seven required variables set and the two optional
ones unset. -/
def sampleEnv : Env := fun name =>
  if name = "AWS_REGION" then some "eu-west-1"
  else if name = "AWS_ACCESS_KEY_ID" then some "AKIAEXAMPLE"
  else if name = "AWS_SECRET_ACCESS_KEY" then some "secret"
  else if name = "SLACK_TOKEN" then some "xoxb-1"
  else if name = "SLACK_CHANNEL" then some "alerts"
  else if name = "VPC_ID" then some "vpc-1"
  else if name = "SECURITY_GROUP_ID" then some "sg-1"
  else none

/-- The configuration `NewConfigFromEnvVars` loads from `sampleEnv`. -/
def sampleConfig : Config :=
  { awsRegion := "eu-west-1"
    awsAccessKeyId := "AKIAEXAMPLE"
    awsSecretAccessKey := "secret"
    environmentName := "Production"
    slackToken := "xoxb-1"
    slackChannel := "alerts"
    ec2InstanceMaxLife := 1800000000000
    vpcId := "vpc-1"
    securityGroupId := "sg-1" }

/-- A Slack transport on which every send succeeds. -/
def slackUp : Nat → String → String → String → Option Error := fun _ _ _ _ => none

/-- A Slack transport on which every send fails. -/
def slackDown : Nat → String → String → String → Option Error :=
  fun _ _ _ _ => some "channel_not_found"

/-- A world in which no instance is older than the default max life. -/
def idleWorld : World :=
  { version := "v1", env := sampleEnv, fracNanos := float64FracNanos, LoadDefaultConfig := none
    ec2Client := twoPageClient, now := tickingClock, SendMessage := slackUp }

/-- A world in which all three instances are over age, termination succeeds and
Slack is down. -/
def busyWorld : World :=
  { version := "v1", env := sampleEnv, fracNanos := float64FracNanos, LoadDefaultConfig := none
    ec2Client := twoPageClient, now := lateClock, SendMessage := slackDown }

/-- A world in which the second listing request fails. -/
def listingFailsWorld : World :=
  { version := "v1", env := sampleEnv, fracNanos := float64FracNanos, LoadDefaultConfig := none
    ec2Client := failingClient, now := lateClock, SendMessage := slackDown }

/-- A world in which all three instances are over age and termination fails. -/
def terminationFailsWorld : World :=
  { version := "v1", env := sampleEnv, fracNanos := float64FracNanos, LoadDefaultConfig := none
    ec2Client := refusingClient, now := lateClock, SendMessage := slackUp }

/-- An environment in which every required variable is set to the empty string
and the max life to minus five minutes. -/
def blankEnv : Env := fun name =>
  if name = "EC2_INSTANCE_MAX_LIFE" then some "-5m"
  else if name = "ENVIRONMENT_NAME" then none
  else some ""

/-- The configuration `NewConfigFromEnvVars` loads from `blankEnv`. -/
def blankConfig : Config :=
  { awsRegion := ""
    awsAccessKeyId := ""
    awsSecretAccessKey := ""
    environmentName := "Production"
    slackToken := ""
    slackChannel := ""
    ec2InstanceMaxLife := -300000000000
    vpcId := ""
    securityGroupId := "" }

/-! ## Lemmas on the selector -/

theorem selectedFrom_nil (now : Nat → Int) (maxLife : Int) (k : Nat) :
    selectedFrom now maxLife k [] = [] := rfl

theorem selectedFrom_cons (now : Nat → Int) (maxLife : Int) (k : Nat) (i : Instance)
    (l : List Instance) :
    selectedFrom now maxLife k (i :: l) =
      (if Since (now k) i.LaunchTime > maxLife then [i.InstanceId] else []) ++
        selectedFrom now maxLife (k + 1) l := by
  unfold selectedFrom
  by_cases h : Since (now k) i.LaunchTime > maxLife <;> simp [List.enumFrom_cons, List.filter_cons, h]

theorem selectedFrom_append (now : Nat → Int) (maxLife : Int) (l₁ l₂ : List Instance) (k : Nat) :
    selectedFrom now maxLife k (l₁ ++ l₂) =
      selectedFrom now maxLife k l₁ ++ selectedFrom now maxLife (k + l₁.length) l₂ := by
  induction l₁ generalizing k with
  | nil => simp [selectedFrom_nil]
  | cons i l ih =>
    simp only [List.cons_append, selectedFrom_cons, ih, List.length_cons, List.append_assoc]
    congr 3
    omega

theorem scanInstances_eq (now : Nat → Int) (maxLife : Int) (l : List Instance) (tick : Nat)
    (ids : List String) :
    scanInstances now maxLife l tick ids =
      (tick + l.length, ids ++ selectedFrom now maxLife tick l) := by
  induction l generalizing tick ids with
  | nil => simp [scanInstances, selectedFrom_nil]
  | cons i l ih =>
    simp only [scanInstances, selectedFrom_cons, List.length_cons]
    split
    · rw [ih]; simp; omega
    · rw [ih]; simp; omega

theorem scanReservations_eq (now : Nat → Int) (maxLife : Int) (rs : List Reservation)
    (tick : Nat) (ids : List String) :
    scanReservations now maxLife rs tick ids =
      (tick + (rs.flatMap fun r => r.Instances).length,
        ids ++ selectedFrom now maxLife tick (rs.flatMap fun r => r.Instances)) := by
  induction rs generalizing tick ids with
  | nil => simp [scanReservations, selectedFrom_nil]
  | cons r rs ih =>
    simp only [scanReservations, scanInstances_eq, ih, List.flatMap_cons, selectedFrom_append,
      List.length_append, List.append_assoc]
    simp [Nat.add_assoc]

theorem selectLoop_of_delivers (client : Ec2Client) (now : Nat → Int)
    (vpcId securityGroupId : String) (maxLife : Int) (pages : List DescribeInstancesOutput) :
    ∀ (tok : Option String) (ids : List String) (tick : Nat)
      (calls : List DescribeInstancesInput) (fuel : Nat),
      Delivers client vpcId securityGroupId tok pages → pages.length ≤ fuel →
      selectLoop client now vpcId securityGroupId maxLife fuel tok ids tick calls =
        some
          { result :=
              { ids := some (ids ++ selectedFrom now maxLife tick (instancesOf pages))
                err := none }
            calls := calls ++ requestsFor vpcId securityGroupId tok pages
            ticks := tick + (instancesOf pages).length } := by
  induction pages with
  | nil => intro tok ids tick calls fuel h; exact absurd h (by simp [Delivers])
  | cons page rest ih =>
    intro tok ids tick calls fuel h hfuel
    cases fuel with
    | zero => simp at hfuel
    | succ fuel =>
      cases rest with
      | nil =>
        obtain ⟨hcall, htok⟩ := h
        simp only [selectLoop, hcall, htok, scanReservations_eq, instancesOf, requestsFor,
          List.flatMap_cons, List.flatMap_nil, List.append_nil]
      | cons next rest =>
        obtain ⟨hcall, htok, hrest⟩ := h
        obtain ⟨t, ht⟩ := Option.isSome_iff_exists.mp htok
        have hlen : (next :: rest).length ≤ fuel := by
          simp only [List.length_cons] at hfuel ⊢; omega
        rw [ht] at hrest
        have := ih (some t) (ids ++ selectedFrom now maxLife tick
          (page.Reservations.flatMap fun r => r.Instances))
          (tick + (page.Reservations.flatMap fun r => r.Instances).length)
          (calls ++ [describeInput vpcId securityGroupId tok]) fuel hrest hlen
        simp only [selectLoop, hcall, ht, scanReservations_eq, this]
        simp only [instancesOf, requestsFor, List.flatMap_cons, selectedFrom_append,
          List.length_append, List.append_assoc, ht, Nat.add_assoc, List.singleton_append]

theorem selectLoop_of_failsAfter (client : Ec2Client) (now : Nat → Int)
    (vpcId securityGroupId : String) (maxLife : Int) (e : Error)
    (pages : List DescribeInstancesOutput) :
    ∀ (tok : Option String) (ids : List String) (tick : Nat)
      (calls : List DescribeInstancesInput) (fuel : Nat),
      FailsAfter client vpcId securityGroupId tok pages e → pages.length + 1 ≤ fuel →
      selectLoop client now vpcId securityGroupId maxLife fuel tok ids tick calls =
        some
          { result := { ids := none, err := some e }
            calls := calls ++ requestsFor vpcId securityGroupId tok pages ++
              [describeInput vpcId securityGroupId (tokenAfter tok pages)]
            ticks := tick + (instancesOf pages).length } := by
  induction pages with
  | nil =>
    intro tok ids tick calls fuel h hfuel
    cases fuel with
    | zero => simp at hfuel
    | succ fuel =>
      have hcall : client.DescribeInstances (describeInput vpcId securityGroupId tok) =
          .error e := h
      simp [selectLoop, hcall, requestsFor, tokenAfter, instancesOf]
  | cons page rest ih =>
    intro tok ids tick calls fuel h hfuel
    cases fuel with
    | zero => simp at hfuel
    | succ fuel =>
      obtain ⟨hcall, htok, hrest⟩ := h
      obtain ⟨t, ht⟩ := Option.isSome_iff_exists.mp htok
      have hlen : rest.length + 1 ≤ fuel := by
        simp only [List.length_cons] at hfuel; omega
      rw [ht] at hrest
      have := ih (some t) (ids ++ selectedFrom now maxLife tick
        (page.Reservations.flatMap fun r => r.Instances))
        (tick + (page.Reservations.flatMap fun r => r.Instances).length)
        (calls ++ [describeInput vpcId securityGroupId tok]) fuel hrest hlen
      simp only [selectLoop, hcall, ht, scanReservations_eq, this]
      simp only [instancesOf, requestsFor, tokenAfter, List.flatMap_cons,
        List.length_append, List.append_assoc, ht, Nat.add_assoc, List.singleton_append]

theorem mem_selectedFrom (now : Nat → Int) (maxLife : Int) (id : String) (l : List Instance) :
    ∀ k, id ∈ selectedFrom now maxLife k l ↔
      ∃ j i, l[j]? = some i ∧ i.InstanceId = id ∧ Since (now (k + j)) i.LaunchTime > maxLife := by
  induction l with
  | nil => intro k; simp [selectedFrom_nil]
  | cons a l ih =>
    intro k
    rw [selectedFrom_cons, List.mem_append, ih]
    constructor
    · rintro (h | ⟨j, i, hj, hid, hd⟩)
      · split at h
        · rename_i hgt
          simp only [List.mem_singleton] at h
          exact ⟨0, a, by simp, h.symm, by simpa using hgt⟩
        · simp at h
      · exact ⟨j + 1, i, by simpa using hj, hid, by
          have : k + (j + 1) = k + 1 + j := by omega
          rw [this]; exact hd⟩
    · rintro ⟨j, i, hj, hid, hd⟩
      cases j with
      | zero =>
        left
        simp only [List.getElem?_cons_zero, Option.some.injEq] at hj
        subst hj
        simp only [Nat.add_zero] at hd
        simp [hd, hid]
      | succ j =>
        right
        refine ⟨j, i, by simpa using hj, hid, ?_⟩
        have : k + (j + 1) = k + 1 + j := by omega
        rw [← this]; exact hd

theorem requestsFor_length (vpcId securityGroupId : String)
    (pages : List DescribeInstancesOutput) :
    ∀ tok, (requestsFor vpcId securityGroupId tok pages).length = pages.length := by
  induction pages with
  | nil => intro tok; rfl
  | cons page rest ih => intro tok; simp [requestsFor, ih]

theorem failsAfter_last (client : Ec2Client) (vpcId securityGroupId : String) (e : Error)
    (pages : List DescribeInstancesOutput) :
    ∀ tok, FailsAfter client vpcId securityGroupId tok pages e →
      client.DescribeInstances (describeInput vpcId securityGroupId (tokenAfter tok pages)) =
        .error e := by
  induction pages with
  | nil => intro tok h; exact h
  | cons page rest ih => intro tok h; exact ih _ h.2.2

/-! ## Lemmas on traces and on `main` -/

theorem collectTerminated_eq (records : List InstanceStateChange) :
    ∀ (ids : List String) (events : List Event),
      collectTerminated records ids events =
        (ids ++ records.map fun r => r.InstanceId,
          events ++ records.map fun r => Event.log (stateChangeLogLine r)) := by
  induction records with
  | nil => intro ids events; simp [collectTerminated]
  | cons r rest ih => intro ids events; simp [collectTerminated, ih]

theorem TerminateInstances_ok (client : Ec2Client) (ids : List String)
    (output : TerminateInstancesOutput) (h : client.TerminateInstances ids = .ok output) :
    TerminateInstances client ids =
      { result := { ids := some (output.TerminatingInstances.map fun r => r.InstanceId), err := none }
        events := Event.terminateInstances ids ::
          output.TerminatingInstances.map fun r => Event.log (stateChangeLogLine r) } := by
  simp [TerminateInstances, h, collectTerminated_eq]

theorem TerminateInstances_error (client : Ec2Client) (ids : List String) (e : Error)
    (h : client.TerminateInstances ids = .error e) :
    TerminateInstances client ids =
      { result := { ids := none, err := some e }, events := [Event.terminateInstances ids] } := by
  simp [TerminateInstances, h]

theorem slackMessages_append (a b : List Event) :
    slackMessages (a ++ b) = slackMessages a ++ slackMessages b := by
  simp [slackMessages, List.filterMap_append]

theorem terminationRequests_append (a b : List Event) :
    terminationRequests (a ++ b) = terminationRequests a ++ terminationRequests b := by
  simp [terminationRequests, List.filterMap_append]

theorem outward_append (a b : List Event) : outward (a ++ b) = outward a ++ outward b := by
  simp [outward, List.filter_append]

theorem providerCalls_append (a b : List Event) :
    providerCalls (a ++ b) = providerCalls a ++ providerCalls b := by
  simp [providerCalls, List.filter_append]

theorem slackMessages_cons_log (text : String) (t : List Event) :
    slackMessages (Event.log text :: t) = slackMessages t := rfl

theorem slackMessages_cons_describe (input : DescribeInstancesInput) (t : List Event) :
    slackMessages (Event.describeInstances input :: t) = slackMessages t := rfl

theorem slackMessages_cons_terminate (ids : List String) (t : List Event) :
    slackMessages (Event.terminateInstances ids :: t) = slackMessages t := rfl

theorem slackMessages_cons_slack (token channel message : String) (t : List Event) :
    slackMessages (Event.slackSendMessage token channel message :: t) =
      (token, channel, message) :: slackMessages t := rfl

theorem terminationRequests_cons_log (text : String) (t : List Event) :
    terminationRequests (Event.log text :: t) = terminationRequests t := rfl

theorem terminationRequests_cons_describe (input : DescribeInstancesInput) (t : List Event) :
    terminationRequests (Event.describeInstances input :: t) = terminationRequests t := rfl

theorem terminationRequests_cons_terminate (ids : List String) (t : List Event) :
    terminationRequests (Event.terminateInstances ids :: t) = ids :: terminationRequests t := rfl

theorem terminationRequests_cons_slack (token channel message : String) (t : List Event) :
    terminationRequests (Event.slackSendMessage token channel message :: t) =
      terminationRequests t := rfl

theorem outward_cons_log (text : String) (t : List Event) :
    outward (Event.log text :: t) = outward t := rfl

theorem outward_cons_describe (input : DescribeInstancesInput) (t : List Event) :
    outward (Event.describeInstances input :: t) = Event.describeInstances input :: outward t :=
  rfl

theorem outward_cons_terminate (ids : List String) (t : List Event) :
    outward (Event.terminateInstances ids :: t) = Event.terminateInstances ids :: outward t := rfl

theorem outward_cons_slack (token channel message : String) (t : List Event) :
    outward (Event.slackSendMessage token channel message :: t) =
      Event.slackSendMessage token channel message :: outward t := rfl

theorem providerCalls_cons_log (text : String) (t : List Event) :
    providerCalls (Event.log text :: t) = providerCalls t := rfl

theorem providerCalls_cons_describe (input : DescribeInstancesInput) (t : List Event) :
    providerCalls (Event.describeInstances input :: t) =
      Event.describeInstances input :: providerCalls t := rfl

theorem providerCalls_cons_terminate (ids : List String) (t : List Event) :
    providerCalls (Event.terminateInstances ids :: t) =
      Event.terminateInstances ids :: providerCalls t := rfl

theorem providerCalls_cons_slack (token channel message : String) (t : List Event) :
    providerCalls (Event.slackSendMessage token channel message :: t) = providerCalls t := rfl

theorem slackMessages_nil : slackMessages [] = [] := rfl

theorem terminationRequests_nil : terminationRequests [] = [] := rfl

theorem outward_nil : outward [] = [] := rfl

theorem providerCalls_nil : providerCalls [] = [] := rfl

theorem slackMessages_describe (calls : List DescribeInstancesInput) :
    slackMessages (calls.map Event.describeInstances) = [] := by
  induction calls with
  | nil => rfl
  | cons a l _ => simp [slackMessages]

theorem terminationRequests_describe (calls : List DescribeInstancesInput) :
    terminationRequests (calls.map Event.describeInstances) = [] := by
  induction calls with
  | nil => rfl
  | cons a l _ => simp [terminationRequests]

theorem outward_describe (calls : List DescribeInstancesInput) :
    outward (calls.map Event.describeInstances) = calls.map Event.describeInstances := by
  induction calls with
  | nil => rfl
  | cons a l _ => simp [outward, Event.isLog]

theorem providerCalls_describe (calls : List DescribeInstancesInput) :
    providerCalls (calls.map Event.describeInstances) = calls.map Event.describeInstances := by
  induction calls with
  | nil => rfl
  | cons a l _ => simp [providerCalls, Event.isProviderCall]

theorem slackMessages_logs {α : Type} (f : α → String) (l : List α) :
    slackMessages (l.map fun r => Event.log (f r)) = [] := by
  induction l with
  | nil => rfl
  | cons a l _ => simp [slackMessages]

theorem terminationRequests_logs {α : Type} (f : α → String) (l : List α) :
    terminationRequests (l.map fun r => Event.log (f r)) = [] := by
  induction l with
  | nil => rfl
  | cons a l _ => simp [terminationRequests]

theorem outward_logs {α : Type} (f : α → String) (l : List α) :
    outward (l.map fun r => Event.log (f r)) = [] := by
  induction l with
  | nil => rfl
  | cons a l _ => simp [outward, Event.isLog]

theorem providerCalls_logs {α : Type} (f : α → String) (l : List α) :
    providerCalls (l.map fun r => Event.log (f r)) = [] := by
  induction l with
  | nil => rfl
  | cons a l _ => simp [providerCalls, Event.isProviderCall]

theorem slackMessages_sendAndLog (w : World) (sent : Nat) (c : Config) (message : String) :
    slackMessages (sendAndLog w sent c message) =
      [(c.GetSlackToken, c.GetSlackChannel, message)] := by
  unfold sendAndLog
  split <;> simp [slackMessages]

theorem terminationRequests_sendAndLog (w : World) (sent : Nat) (c : Config)
    (message : String) : terminationRequests (sendAndLog w sent c message) = [] := by
  unfold sendAndLog
  split <;> simp [terminationRequests]

theorem outward_sendAndLog (w : World) (sent : Nat) (c : Config) (message : String) :
    outward (sendAndLog w sent c message) =
      [Event.slackSendMessage c.GetSlackToken c.GetSlackChannel message] := by
  unfold sendAndLog
  split <;> simp [outward, Event.isLog]

theorem providerCalls_sendAndLog (w : World) (sent : Nat) (c : Config) (message : String) :
    providerCalls (sendAndLog w sent c message) = [] := by
  unfold sendAndLog
  split <;> simp [providerCalls, Event.isProviderCall]

theorem main_of_selection (w : World) (fuel : Nat) (c : Config) (sel : SelectorRun)
    (hc : NewConfigFromEnvVars w.fracNanos w.env = .ok c) (hl : w.LoadDefaultConfig = none)
    (hs : GetIdsOfInstancesToTerminate w.ec2Client w.now c.GetVpcId c.GetSecurityGroupId
      c.GetEc2InstanceMaxLife fuel = some sel) :
    main w fuel =
      some
        (match sel.result.err with
        | some err =>
          logAndExit w 0 ([Event.log ("version: " ++ w.version)] ++
            sel.calls.map Event.describeInstances) "Couldn't retrieve running instances" err c
        | none =>
          afterSelection w c ([Event.log ("version: " ++ w.version)] ++
            sel.calls.map Event.describeInstances) sel.result.ids) := by
  simp only [main, hc, hl, hs]
  cases sel.result.err <;> rfl

theorem mentions_of_eq (message a part b : String) (h : message = a ++ part ++ b) :
    Mentions message part := by
  refine ⟨a.data, b.data, ?_⟩
  rw [h]
  simp [String.data_append]

theorem append_ne_of_take_ne (a b x y : String) (n : Nat) (ha : n ≤ a.data.length)
    (hb : n ≤ b.data.length) (h : a.data.take n ≠ b.data.take n) : a ++ x ≠ b ++ y := by
  intro heq
  apply h
  have := congrArg (fun s : String => s.data.take n) heq
  simpa [String.data_append, List.take_append_of_le_length ha,
    List.take_append_of_le_length hb] using this

theorem afterSelection_empty (w : World) (c : Config) (t : List Event) :
    afterSelection w c t (some []) =
      { trace := t ++ [Event.log ("\nInstance IDs of running instances are: " ++ fmtStrings [])]
        exitCode := 0 } := by
  simp [afterSelection]

theorem afterSelection_terminated (w : World) (c : Config) (t : List Event) (ids : List String)
    (output : TerminateInstancesOutput) (hne : ids ≠ [])
    (ht : w.ec2Client.TerminateInstances ids = .ok output) :
    afterSelection w c t (some ids) =
      { trace := t ++
          [Event.log ("\nInstance IDs of running instances are: " ++ fmtStrings ids)] ++
          sendAndLog w 0 c (atRiskMessage ids) ++
          [Event.terminateInstances ids] ++
          output.TerminatingInstances.map (fun r => Event.log (stateChangeLogLine r)) ++
          sendAndLog w 1 c
            (terminatedMessage (output.TerminatingInstances.map fun r => r.InstanceId))
        exitCode := 0 } := by
  have hpos : 0 < ids.length := List.length_pos.mpr hne
  simp [afterSelection, reportAndTerminate, hpos, TerminateInstances_ok w.ec2Client ids output ht]

theorem afterSelection_refused (w : World) (c : Config) (t : List Event) (ids : List String)
    (e : Error) (hne : ids ≠ []) (ht : w.ec2Client.TerminateInstances ids = .error e) :
    afterSelection w c t (some ids) =
      { trace := t ++
          [Event.log ("\nInstance IDs of running instances are: " ++ fmtStrings ids)] ++
          sendAndLog w 0 c (atRiskMessage ids) ++
          [Event.terminateInstances ids] ++
          sendAndLog w 1 c (escalationMessage "Couldn't terminate instances" e c) ++
          [Event.log ("\nCouldn't terminate instances: " ++ e)]
        exitCode := 1 } := by
  have hpos : 0 < ids.length := List.length_pos.mpr hne
  simp [afterSelection, reportAndTerminate, logAndExit, hpos,
    TerminateInstances_error w.ec2Client ids e ht]

/-! ## Facts about the concrete worlds -/

set_option maxRecDepth 100000 in
theorem sampleEnv_config :
    NewConfigFromEnvVars float64FracNanos sampleEnv = .ok sampleConfig := rfl

set_option maxRecDepth 100000 in
theorem idleWorld_selection :
    GetIdsOfInstancesToTerminate twoPageClient tickingClock "vpc-1" "sg-1" 1800000000000 2 =
      some
        { result := { ids := some [], err := none }
          calls := [describeInput "vpc-1" "sg-1" none, describeInput "vpc-1" "sg-1" (some "page-2")]
          ticks := 3 } := rfl

set_option maxRecDepth 100000 in
theorem lateClock_selection (client : Ec2Client)
    (h : client.DescribeInstances = twoPageClient.DescribeInstances) :
    GetIdsOfInstancesToTerminate client lateClock "vpc-1" "sg-1" 1800000000000 2 =
      some
        { result := { ids := some ["i-0a1", "i-0b2", "i-0c3"], err := none }
          calls := [describeInput "vpc-1" "sg-1" none, describeInput "vpc-1" "sg-1" (some "page-2")]
          ticks := 3 } := by
  simp only [GetIdsOfInstancesToTerminate, selectLoop, h]
  rfl

set_option maxRecDepth 100000 in
theorem failingClient_selection :
    GetIdsOfInstancesToTerminate failingClient lateClock "vpc-1" "sg-1" 1800000000000 2 =
      some
        { result := { ids := none, err := some "RequestTimeout" }
          calls := [describeInput "vpc-1" "sg-1" none, describeInput "vpc-1" "sg-1" (some "page-2")]
          ticks := 2 } := rfl

theorem escalationMessage_mentions (errorContext : String) (err : Error) (c : Config) :
    Mentions (escalationMessage errorContext err c) c.environmentName ∧
      Mentions (escalationMessage errorContext err c) errorContext ∧
      Mentions (escalationMessage errorContext err c) err := by
  refine ⟨?_, ?_, ?_⟩
  · exact mentions_of_eq _ "Critical :rotating_light:! An error occured in ec2-killer bot in " _
      (" environment :rotating_light: : ```\n" ++ errorContext ++ ": " ++ err ++ "\n```")
      (by simp [escalationMessage, Config.GetEnvironmentName, String.append_assoc])
  · exact mentions_of_eq _
      ("Critical :rotating_light:! An error occured in ec2-killer bot in " ++ c.environmentName
        ++ " environment :rotating_light: : ```\n") _ (": " ++ err ++ "\n```")
      (by simp [escalationMessage, Config.GetEnvironmentName, String.append_assoc])
  · exact mentions_of_eq _
      ("Critical :rotating_light:! An error occured in ec2-killer bot in " ++ c.environmentName
        ++ " environment :rotating_light: : ```\n" ++ errorContext ++ ": ") _ "\n```"
      (by simp [escalationMessage, Config.GetEnvironmentName, String.append_assoc])

theorem atRiskMessage_ne_terminatedMessage (ids ids' : List String) :
    atRiskMessage ids ≠ terminatedMessage ids' :=
  append_ne_of_take_ne _ _ _ _ 17 (by decide) (by decide) (by decide)

theorem escalationMessage_ne_terminatedMessage (errorContext : String) (err : Error)
    (c : Config) (ids' : List String) :
    escalationMessage errorContext err c ≠ terminatedMessage ids' := by
  unfold escalationMessage terminatedMessage
  simp only [String.append_assoc]
  exact append_ne_of_take_ne _ _ _ _ 1 (by decide) (by decide) (by decide)

/-! ## Lemmas on `time.ParseDuration` and the configuration -/

theorem parseComponents_le (fracNanos : FracNanos) (orig : String) :
    ∀ (fuel : Nat) (s : List Char) (d r : Nat), d ≤ 2 ^ 63 →
      parseComponents fracNanos orig fuel s d = some (.ok r) → r ≤ 2 ^ 63 := by
  intro fuel
  induction fuel with
  | zero =>
    intro s d r hd h
    cases s with
    | nil => simp only [parseComponents, Option.some.injEq, Except.ok.injEq] at h; omega
    | cons c s => simp [parseComponents] at h
  | succ fuel ih =>
    intro s d r hd h
    cases s with
    | nil => simp only [parseComponents, Option.some.injEq, Except.ok.injEq] at h; omega
    | cons c s =>
      simp only [parseComponents] at h
      split at h
      · simp at h
      · split at h
        · simp at h
        · rename_i hle
          exact ih _ _ r (by omega) h

theorem ParseDuration_bounds (fracNanos : FracNanos) (s : String) (v : Int)
    (h : ParseDuration fracNanos s = .ok v) : minDuration ≤ v ∧ v ≤ maxDuration := by
  simp only [ParseDuration] at h
  simp only [minDuration, maxDuration]
  split at h
  · cases h; omega
  · split at h
    · cases h
    · split at h
      · cases h
      · cases h
      · rename_i d hd
        have hle := parseComponents_le fracNanos s _ _ 0 d (by omega) hd
        split at h
        · cases h; omega
        · split at h
          · cases h
          · cases h; omega

theorem leadingInt_length :
    ∀ (s : List Char) (x v : Nat) (rest : List Char),
      leadingInt s x = some (v, rest) → rest.length ≤ s.length := by
  intro s
  induction s with
  | nil => intro x v rest h; simp only [leadingInt, Option.some.injEq, Prod.mk.injEq] at h; simp [← h.2]
  | cons c s ih =>
    intro x v rest h
    simp only [leadingInt] at h
    split at h
    · simp only [Option.some.injEq, Prod.mk.injEq] at h; simp [← h.2]
    · split at h
      · cases h
      · split at h
        · cases h
        · have := ih _ _ _ h
          simp only [List.length_cons]; omega

theorem leadingFraction_length :
    ∀ (s : List Char) (x scale : Nat) (overflow : Bool),
      (leadingFraction s x scale overflow).2.2.length ≤ s.length := by
  intro s
  induction s with
  | nil => intro x scale overflow; simp [leadingFraction]
  | cons c s ih =>
    intro x scale overflow
    simp only [leadingFraction]
    split
    · simp
    · split
      · have := ih x scale overflow
        simp only [List.length_cons]; omega
      · split
        · have := ih x scale true
          simp only [List.length_cons]; omega
        · split
          · have := ih x scale true
            simp only [List.length_cons]; omega
          · have := ih (x * 10 + c.toNat - '0'.toNat) (scale * 10) false
            simp only [List.length_cons]; omega

theorem takeWhile_length_add_dropWhile_length {α : Type} (p : α → Bool) (l : List α) :
    (l.takeWhile p).length + (l.dropWhile p).length = l.length := by
  rw [← List.length_append, List.takeWhile_append_dropWhile]

theorem parseComponent_length (fracNanos : FracNanos) (orig : String) (s : List Char)
    (v : Nat) (rest : List Char) (h : parseComponent fracNanos orig s = .ok (v, rest)) :
    rest.length < s.length := by
  unfold parseComponent at h
  split at h
  · cases h
  · split at h
    · cases h
    · rename_i v0 s1 hint
      have h1 := leadingInt_length s 0 v0 s1 hint
      have h2 : (match s1 with
          | '.' :: s1' => leadingFraction s1' 0 1 false
          | _ => (0, 1, s1)).2.2.length ≤ s1.length := by
        split
        · rename_i s1'
          have := leadingFraction_length s1' 0 1 false
          simp only [List.length_cons]; omega
        · simp
      simp only at h
      generalize (match s1 with
          | '.' :: s1' => leadingFraction s1' 0 1 false
          | _ => (0, 1, s1)) = frac at h h2
      have htd := takeWhile_length_add_dropWhile_length (fun c => !(endsUnit c)) frac.2.2
      split at h
      · cases h
      · split at h
        · cases h
        · rename_i hu
          split at h
          · cases h
          · split at h
            · cases h
            · split at h
              · split at h
                · cases h
                · simp only [Except.ok.injEq, Prod.mk.injEq] at h
                  rw [← h.2]; omega
              · simp only [Except.ok.injEq, Prod.mk.injEq] at h
                rw [← h.2]; omega

theorem parseComponents_fuel (fracNanos : FracNanos) (orig : String) :
    ∀ (fuel : Nat) (s : List Char) (d : Nat), s.length ≤ fuel →
      (parseComponents fracNanos orig fuel s d).isSome = true := by
  intro fuel
  induction fuel with
  | zero =>
    intro s d h
    cases s with
    | nil => simp [parseComponents]
    | cons c s => simp at h
  | succ fuel ih =>
    intro s d h
    cases s with
    | nil => simp [parseComponents]
    | cons c s =>
      simp only [parseComponents]
      split
      · simp
      · rename_i v rest hpc
        have hlt := parseComponent_length fracNanos orig (c :: s) v rest hpc
        split
        · simp
        · exact ih _ _ (by omega)

theorem NewConfigFromEnvVars_ok (fracNanos : FracNanos) (env : Env) (c : Config)
    (h : NewConfigFromEnvVars fracNanos env = .ok c) :
    env AWS_REGION_ENV_VAR = some c.awsRegion ∧
      env AWS_ACCESS_KEY_ID_ENV_VAR = some c.awsAccessKeyId ∧
      env AWS_SECRET_ACCESS_KEY_ENV_VAR = some c.awsSecretAccessKey ∧
      env SLACK_TOKEN_ENV_VAR = some c.slackToken ∧
      env SLACK_CHANNEL_ENV_VAR = some c.slackChannel ∧
      env VPC_ID_ENV_VAR = some c.vpcId ∧
      env SECURITY_GROUP_ID_ENV_VAR = some c.securityGroupId ∧
      c.environmentName = getEnvironmentName env ∧
      getEc2InstanceMaxLife fracNanos env = .ok c.ec2InstanceMaxLife := by
  unfold NewConfigFromEnvVars at h
  simp only [getAwsRegion, getAwsAccessKeyId, getAwsSecretAccessKey, getSlackToken,
    getSlackChannel, getVpcId, getSecurityGroupId] at h
  cases h1 : env AWS_REGION_ENV_VAR <;> simp only [h1] at h <;> try cases h
  cases h2 : env AWS_ACCESS_KEY_ID_ENV_VAR <;> simp only [h2] at h <;> try cases h
  cases h3 : env AWS_SECRET_ACCESS_KEY_ENV_VAR <;> simp only [h3] at h <;> try cases h
  cases h4 : env SLACK_TOKEN_ENV_VAR <;> simp only [h4] at h <;> try cases h
  cases h5 : env SLACK_CHANNEL_ENV_VAR <;> simp only [h5] at h <;> try cases h
  cases h6 : env VPC_ID_ENV_VAR <;> simp only [h6] at h <;> try cases h
  cases h7 : env SECURITY_GROUP_ID_ENV_VAR <;> simp only [h7] at h <;> try cases h
  cases h8 : getEc2InstanceMaxLife fracNanos env <;> simp only [h8] at h <;> try cases h
  simp

theorem NewConfigFromEnvVars_of_set (fracNanos : FracNanos) (env : Env)
    (awsRegion awsAccessKeyId awsSecretAccessKey slackToken slackChannel vpcId
      securityGroupId : String) (maxLife : Int)
    (h1 : env AWS_REGION_ENV_VAR = some awsRegion)
    (h2 : env AWS_ACCESS_KEY_ID_ENV_VAR = some awsAccessKeyId)
    (h3 : env AWS_SECRET_ACCESS_KEY_ENV_VAR = some awsSecretAccessKey)
    (h4 : env SLACK_TOKEN_ENV_VAR = some slackToken)
    (h5 : env SLACK_CHANNEL_ENV_VAR = some slackChannel)
    (h6 : env VPC_ID_ENV_VAR = some vpcId)
    (h7 : env SECURITY_GROUP_ID_ENV_VAR = some securityGroupId)
    (h8 : getEc2InstanceMaxLife fracNanos env = .ok maxLife) :
    NewConfigFromEnvVars fracNanos env =
      .ok
        { awsRegion := awsRegion
          awsAccessKeyId := awsAccessKeyId
          awsSecretAccessKey := awsSecretAccessKey
          environmentName := getEnvironmentName env
          slackToken := slackToken
          slackChannel := slackChannel
          ec2InstanceMaxLife := maxLife
          vpcId := vpcId
          securityGroupId := securityGroupId } := by
  simp only [NewConfigFromEnvVars, getAwsRegion, getAwsAccessKeyId, getAwsSecretAccessKey,
    getSlackToken, getSlackChannel, getVpcId, getSecurityGroupId, h1, h2, h3, h4, h5, h6, h7, h8]

set_option maxRecDepth 100000 in
theorem ParseDuration_default (fracNanos : FracNanos) :
    ParseDuration fracNanos DEFAULT_EC2_INSTANCE_MAX_LIFE = .ok 1800000000000 := rfl

theorem getEc2InstanceMaxLife_eq (fracNanos : FracNanos) (env : Env) (d : Int)
    (h : getEc2InstanceMaxLife fracNanos env = .ok d) :
    ParseDuration fracNanos
      ((env EC2_INSTANCE_MAX_LIFE_ENV_VAR).getD DEFAULT_EC2_INSTANCE_MAX_LIFE) = .ok d := by
  unfold getEc2InstanceMaxLife at h
  cases hv : env EC2_INSTANCE_MAX_LIFE_ENV_VAR <;> simp only [hv, Option.getD] at h ⊢ <;>
    split at h <;> first | (cases h; assumption) | cases h

set_option maxRecDepth 100000 in
theorem blankEnv_config : NewConfigFromEnvVars float64FracNanos blankEnv = .ok blankConfig := rfl

/-! ## Lemmas on a single examination and on the notification texts -/

theorem selectedFrom_split (now : Nat → Int) (maxLife : Int) (l : List Instance) (k : Nat)
    (inst : Instance) (hk : l[k]? = some inst) (start : Nat) :
    selectedFrom now maxLife start l =
      selectedFrom now maxLife start (l.take k) ++
        ((if Since (now (start + k)) inst.LaunchTime > maxLife then [inst.InstanceId] else []) ++
          selectedFrom now maxLife (start + k + 1) (l.drop (k + 1))) := by
  obtain ⟨hlt, hget⟩ := List.getElem?_eq_some.mp hk
  have hsplit : l = l.take k ++ inst :: l.drop (k + 1) := by
    rw [← hget, ← List.drop_eq_getElem_cons hlt, List.take_append_drop]
  have hlen : (l.take k).length = k := by
    rw [List.length_take]; omega
  conv_lhs => rw [hsplit]
  rw [selectedFrom_append, selectedFrom_cons, hlen]

theorem scanInstances_single_within (now : Nat → Int) (maxLife : Int) (inst : Instance)
    (k : Nat) (h : Since (now k) inst.LaunchTime ≤ maxLife) (acc : List String) :
    scanInstances now maxLife [inst] k acc = (k + 1, acc) := by
  have hn : ¬ Since (now k) inst.LaunchTime > maxLife := by omega
  simp [scanInstances, hn]

theorem intercalate_go_data (sep : String) (l : List String) :
    ∀ acc : String, (String.intercalate.go acc sep l).data =
      acc.data ++ l.flatMap fun a => sep.data ++ a.data := by
  induction l with
  | nil => intro acc; simp [String.intercalate.go]
  | cons a l ih =>
    intro acc
    simp [String.intercalate.go, ih, String.data_append, List.append_assoc]

theorem infix_flatMap_of_mem (sep : List Char) (l : List String) (id : String) (h : id ∈ l) :
    List.IsInfix id.data (l.flatMap fun a => sep ++ a.data) := by
  induction l with
  | nil => simp at h
  | cons a l ih =>
    simp only [List.flatMap_cons]
    rcases List.mem_cons.mp h with h | h
    · subst h
      exact ⟨sep, l.flatMap fun a => sep ++ a.data, by simp⟩
    · obtain ⟨s, t, hst⟩ := ih h
      exact ⟨sep ++ a.data ++ s, t, by simp [← hst, List.append_assoc]⟩

theorem infix_intercalate_of_mem (sep : String) (l : List String) (id : String) (h : id ∈ l) :
    List.IsInfix id.data (sep.intercalate l).data := by
  cases l with
  | nil => simp at h
  | cons a l =>
    simp only [String.intercalate, intercalate_go_data]
    rcases List.mem_cons.mp h with h | h
    · subst h
      exact ⟨[], l.flatMap fun a => sep.data ++ a.data, by simp⟩
    · obtain ⟨s, t, hst⟩ := infix_flatMap_of_mem sep.data l id h
      exact ⟨a.data ++ s, t, by simp [← hst, List.append_assoc]⟩

theorem atRiskMessage_mentions (ids : List String) (id : String) (h : id ∈ ids) :
    Mentions (atRiskMessage ids) id := by
  obtain ⟨s, t, hst⟩ := infix_intercalate_of_mem " " ids id h
  refine ⟨"Instance IDs of running instances are: ".data ++ "[".data ++ s, t ++ "]".data, ?_⟩
  simp only [atRiskMessage, fmtStrings, String.data_append, ← hst, List.append_assoc]

/-! ## The selector: claims C1, C2, C3 -/

/-- C1, as stated, fails: `repeatingClient` delivers the same instance on each
of its two pages; with `maxLife = 10` the first examination computes a running
duration of exactly 10 (not over `maxLife`), the second one 11, and the id of
the instance is in the list `GetIdsOfInstancesToTerminate` returns. -/
theorem selector_id_of_young_instance_returned :
    Delivers repeatingClient "vpc-1" "sg-1" none [repeatPage1, repeatPage2] ∧
      (instancesOf [repeatPage1, repeatPage2])[0]? = some sampleInstance ∧
      Since (tickingClock 0) sampleInstance.LaunchTime ≤ 10 ∧
      GetIdsOfInstancesToTerminate repeatingClient tickingClock "vpc-1" "sg-1" 10 2 =
        some
          { result := { ids := some ["i-0a1"], err := none }
            calls := [describeInput "vpc-1" "sg-1" none, describeInput "vpc-1" "sg-1" (some "page-2")]
            ticks := 2 } ∧
      sampleInstance.InstanceId ∈ ["i-0a1"] := by
  refine ⟨⟨rfl, rfl, rfl, rfl⟩, rfl, by decide, rfl, by decide⟩

/-- C1 (amended): when the provider delivers the pages `pages` and the instance
record at position `k` of the delivery order is examined with a running
duration of at most `maxLife`, then with enough fuel
`GetIdsOfInstancesToTerminate` returns the ids selected by `selectedIds`, and:
that examination adds nothing to the result (the loop body leaves the id list
as it was, and the returned list is the selection from the records before
position `k` followed by the selection from the records after it); the id of
the record is in the returned list exactly when some other delivered record
with the same id is examined with a running duration over `maxLife`; so it is
not in the list when there is no such record. -/
theorem selector_skips_instance_within_max_life (client : Ec2Client) (now : Nat → Int)
    (vpcId securityGroupId : String) (maxLife : Int) (pages : List DescribeInstancesOutput)
    (k : Nat) (inst : Instance)
    (hdel : Delivers client vpcId securityGroupId none pages)
    (hk : (instancesOf pages)[k]? = some inst)
    (hyoung : Since (now k) inst.LaunchTime ≤ maxLife) :
    ∀ fuel, pages.length ≤ fuel →
      ∃ run ids,
        GetIdsOfInstancesToTerminate client now vpcId securityGroupId maxLife fuel = some run ∧
          run.result = { ids := some ids, err := none } ∧
          ids = selectedIds now maxLife (instancesOf pages) ∧
          (∀ acc, scanInstances now maxLife [inst] k acc = (k + 1, acc)) ∧
          ids = selectedFrom now maxLife 0 ((instancesOf pages).take k) ++
            selectedFrom now maxLife (k + 1) ((instancesOf pages).drop (k + 1)) ∧
          (inst.InstanceId ∈ ids ↔
            ∃ j other, j ≠ k ∧ (instancesOf pages)[j]? = some other ∧
              other.InstanceId = inst.InstanceId ∧ Since (now j) other.LaunchTime > maxLife) ∧
          ((∀ j other, j ≠ k → (instancesOf pages)[j]? = some other →
              other.InstanceId = inst.InstanceId → Since (now j) other.LaunchTime ≤ maxLife) →
            inst.InstanceId ∉ ids) := by
  intro fuel hfuel
  have hn : ¬ Since (now k) inst.LaunchTime > maxLife := by omega
  have hiff : inst.InstanceId ∈ selectedFrom now maxLife 0 (instancesOf pages) ↔
      ∃ j other, j ≠ k ∧ (instancesOf pages)[j]? = some other ∧
        other.InstanceId = inst.InstanceId ∧ Since (now j) other.LaunchTime > maxLife := by
    rw [mem_selectedFrom]
    constructor
    · rintro ⟨j, other, hj, hid, hd⟩
      simp only [Nat.zero_add] at hd
      refine ⟨j, other, ?_, hj, hid, hd⟩
      intro hjk
      subst hjk
      rw [hk] at hj
      cases hj
      exact hn hd
    · rintro ⟨j, other, _, hj, hid, hd⟩
      exact ⟨j, other, hj, hid, by simpa using hd⟩
  refine ⟨_, _, selectLoop_of_delivers client now vpcId securityGroupId maxLife pages none [] 0 []
    fuel hdel hfuel, rfl, by simp [selectedIds], ?_, ?_, ?_, ?_⟩
  · exact scanInstances_single_within now maxLife inst k hyoung
  · have := selectedFrom_split now maxLife (instancesOf pages) k inst hk 0
    simp only [Nat.zero_add, hn, if_false, List.nil_append] at this
    simpa using this
  · simpa using hiff
  · intro hothers hmem
    simp only [List.nil_append] at hmem
    obtain ⟨j, other, hjk, hj, hid, hd⟩ := hiff.mp hmem
    have := hothers j other hjk hj hid
    omega

/-- Witness for C1 (amended): `repeatingClient` delivers the same instance on
both pages; with `maxLife = 11` the first examination computes duration 10 and
the second 11, neither over `maxLife`. -/
theorem selector_skips_instance_within_max_life_witness :
    ∃ run ids,
      GetIdsOfInstancesToTerminate repeatingClient tickingClock "vpc-1" "sg-1" 11 2 =
          some run ∧
        run.result = { ids := some ids, err := none } ∧
        ids = selectedIds tickingClock 11 (instancesOf [repeatPage1, repeatPage2]) ∧
        (∀ acc, scanInstances tickingClock 11 [sampleInstance] 0 acc = (0 + 1, acc)) ∧
        ids = selectedFrom tickingClock 11 0 ((instancesOf [repeatPage1, repeatPage2]).take 0) ++
          selectedFrom tickingClock 11 (0 + 1)
            ((instancesOf [repeatPage1, repeatPage2]).drop (0 + 1)) ∧
        (sampleInstance.InstanceId ∈ ids ↔
          ∃ j other, j ≠ 0 ∧ (instancesOf [repeatPage1, repeatPage2])[j]? = some other ∧
            other.InstanceId = sampleInstance.InstanceId ∧
            Since (tickingClock j) other.LaunchTime > 11) ∧
        ((∀ j other, j ≠ 0 → (instancesOf [repeatPage1, repeatPage2])[j]? = some other →
            other.InstanceId = sampleInstance.InstanceId →
            Since (tickingClock j) other.LaunchTime ≤ 11) →
          sampleInstance.InstanceId ∉ ids) :=
  selector_skips_instance_within_max_life repeatingClient tickingClock "vpc-1" "sg-1" 11
    [repeatPage1, repeatPage2] 0 sampleInstance (by decide) rfl (by decide) 2 (by decide)

/-- C2: when the provider answers the pagination (first request without token,
each later request with the token of the page before) by the pages `pages`, the
last of which is the first without a next token, `GetIdsOfInstancesToTerminate`
with enough fuel returns, with a nil error, exactly the ids of the instances
whose running duration exceeds `maxLife`, taken from the concatenation of the
pages in delivery order, after issuing exactly the requests of that
pagination. -/
theorem selector_returns_ids_over_max_life (client : Ec2Client) (now : Nat → Int)
    (vpcId securityGroupId : String) (maxLife : Int) (pages : List DescribeInstancesOutput)
    (hdel : Delivers client vpcId securityGroupId none pages) :
    ∀ fuel, pages.length ≤ fuel →
      GetIdsOfInstancesToTerminate client now vpcId securityGroupId maxLife fuel =
        some
          { result :=
              { ids := some (selectedIds now maxLife (instancesOf pages)), err := none }
            calls := requestsFor vpcId securityGroupId none pages
            ticks := (instancesOf pages).length } := by
  intro fuel hfuel
  have := selectLoop_of_delivers client now vpcId securityGroupId maxLife pages none [] 0 []
    fuel hdel hfuel
  simpa [GetIdsOfInstancesToTerminate, selectedIds] using this

/-- Witness for C2 on `twoPageClient`. -/
theorem selector_returns_ids_over_max_life_witness :
    Delivers twoPageClient "vpc-1" "sg-1" none [twoPage1, twoPage2] ∧
      GetIdsOfInstancesToTerminate twoPageClient tickingClock "vpc-1" "sg-1" 5 7 =
        some
          { result :=
              { ids := some (selectedIds tickingClock 5 (instancesOf [twoPage1, twoPage2]))
                err := none }
            calls := requestsFor "vpc-1" "sg-1" none [twoPage1, twoPage2]
            ticks := (instancesOf [twoPage1, twoPage2]).length } :=
  ⟨⟨rfl, rfl, rfl, rfl⟩,
    selector_returns_ids_over_max_life twoPageClient tickingClock "vpc-1" "sg-1" 5
      [twoPage1, twoPage2] ⟨rfl, rfl, rfl, rfl⟩ 7 (by decide)⟩

/-- C3: when the pages `pages` are delivered, each with a next token, and the
following `DescribeInstances` call (call number `pages.length + 1`) fails with
`e`, `GetIdsOfInstancesToTerminate` with enough fuel returns the nil slice
together with the error `e`, whatever ids it had collected, and the requests it
issued are those of the pagination up to the failing one and none after. -/
theorem selector_returns_error_of_failing_call (client : Ec2Client) (now : Nat → Int)
    (vpcId securityGroupId : String) (maxLife : Int) (pages : List DescribeInstancesOutput)
    (e : Error) (hfail : FailsAfter client vpcId securityGroupId none pages e) :
    ∀ fuel, pages.length + 1 ≤ fuel →
      ∃ run,
        GetIdsOfInstancesToTerminate client now vpcId securityGroupId maxLife fuel = some run ∧
          run.result = { ids := none, err := some e } ∧
          run.calls = requestsFor vpcId securityGroupId none pages ++
            [describeInput vpcId securityGroupId (tokenAfter none pages)] ∧
          run.calls.length = pages.length + 1 ∧
          client.DescribeInstances (describeInput vpcId securityGroupId (tokenAfter none pages)) =
            .error e := by
  intro fuel hfuel
  have hrun := selectLoop_of_failsAfter client now vpcId securityGroupId maxLife e pages none []
    0 [] fuel hfail hfuel
  refine ⟨_, hrun, rfl, by simp, ?_, ?_⟩
  · simp [requestsFor_length]
  · exact failsAfter_last client vpcId securityGroupId e pages none hfail

/-- Witness for C3 on `failingClient`, whose second call fails. -/
theorem selector_returns_error_of_failing_call_witness :
    ∃ run,
      GetIdsOfInstancesToTerminate failingClient tickingClock "vpc-1" "sg-1" 5 2 = some run ∧
        run.result = { ids := none, err := some "RequestTimeout" } ∧
        run.calls = requestsFor "vpc-1" "sg-1" none [twoPage1] ++
          [describeInput "vpc-1" "sg-1" (tokenAfter none [twoPage1])] ∧
        run.calls.length = [twoPage1].length + 1 ∧
        failingClient.DescribeInstances
          (describeInput "vpc-1" "sg-1" (tokenAfter none [twoPage1])) = .error "RequestTimeout" :=
  selector_returns_error_of_failing_call failingClient tickingClock "vpc-1" "sg-1" 5 [twoPage1]
    "RequestTimeout" ⟨rfl, rfl, rfl⟩ 2 (by decide)

/-! ## The terminator: claim C5 -/

/-- C5: when the provider's `TerminateInstances` call for the id list `ids`
succeeds with `output`, the Go function `TerminateInstances` issues exactly one
termination request, carrying `ids` unchanged, and returns with a nil error
exactly the instance ids of the state-change records of `output`, one per
record in response order; so an id is in the result exactly when some returned
record carries it. -/
theorem terminate_returns_acknowledged_ids (client : Ec2Client) (ids : List String)
    (output : TerminateInstancesOutput) (h : client.TerminateInstances ids = .ok output) :
    (TerminateInstances client ids).result =
        { ids := some (output.TerminatingInstances.map fun r => r.InstanceId), err := none } ∧
      terminationRequests (TerminateInstances client ids).events = [ids] ∧
      providerCalls (TerminateInstances client ids).events = [Event.terminateInstances ids] ∧
      (TerminateInstances client ids).events =
        Event.terminateInstances ids ::
          output.TerminatingInstances.map (fun r => Event.log (stateChangeLogLine r)) ∧
      ∀ id, id ∈ (output.TerminatingInstances.map fun r => r.InstanceId) ↔
        ∃ r ∈ output.TerminatingInstances, r.InstanceId = id := by
  rw [TerminateInstances_ok client ids output h]
  refine ⟨rfl, ?_, ?_, rfl, ?_⟩
  · simp [terminationRequests_cons_terminate, terminationRequests_logs]
  · simp [providerCalls_cons_terminate, providerCalls_logs]
  · intro id
    simp

/-- Witness for C5: `twoPageClient` acknowledges both requested ids. -/
theorem terminate_returns_acknowledged_ids_witness :
    (TerminateInstances twoPageClient ["i-0a1", "i-0b2"]).result =
        { ids := some ((acknowledgeAll ["i-0a1", "i-0b2"]).TerminatingInstances.map
            fun r => r.InstanceId), err := none } ∧
      terminationRequests (TerminateInstances twoPageClient ["i-0a1", "i-0b2"]).events =
        [["i-0a1", "i-0b2"]] ∧
      providerCalls (TerminateInstances twoPageClient ["i-0a1", "i-0b2"]).events =
        [Event.terminateInstances ["i-0a1", "i-0b2"]] ∧
      (TerminateInstances twoPageClient ["i-0a1", "i-0b2"]).events =
        Event.terminateInstances ["i-0a1", "i-0b2"] ::
          (acknowledgeAll ["i-0a1", "i-0b2"]).TerminatingInstances.map
            (fun r => Event.log (stateChangeLogLine r)) ∧
      ∀ id, id ∈ ((acknowledgeAll ["i-0a1", "i-0b2"]).TerminatingInstances.map
          fun r => r.InstanceId) ↔
        ∃ r ∈ (acknowledgeAll ["i-0a1", "i-0b2"]).TerminatingInstances, r.InstanceId = id :=
  terminate_returns_acknowledged_ids twoPageClient ["i-0a1", "i-0b2"]
    (acknowledgeAll ["i-0a1", "i-0b2"]) rfl

/-! ## The run: claims C4, C6, C7, C8 -/

/-- C4: in a run in which `GetIdsOfInstancesToTerminate` returns the empty list
with a nil error, `main` finishes with exit status 0, its trace holds no
termination request and no Slack message: it consists of the version log line,
the listing requests and the log line of the (empty) id list. -/
theorem main_idle_on_empty_selection (w : World) (fuel : Nat) (c : Config) (sel : SelectorRun)
    (hc : NewConfigFromEnvVars w.fracNanos w.env = .ok c) (hl : w.LoadDefaultConfig = none)
    (hs : GetIdsOfInstancesToTerminate w.ec2Client w.now c.GetVpcId c.GetSecurityGroupId
      c.GetEc2InstanceMaxLife fuel = some sel)
    (hempty : sel.result = { ids := some [], err := none }) :
    ∃ run, main w fuel = some run ∧ run.exitCode = 0 ∧
      terminationRequests run.trace = [] ∧ slackMessages run.trace = [] ∧
      run.trace = [Event.log ("version: " ++ w.version)] ++
        sel.calls.map Event.describeInstances ++
        [Event.log ("\nInstance IDs of running instances are: " ++ fmtStrings [])] := by
  have hmain := main_of_selection w fuel c sel hc hl hs
  rw [hempty] at hmain
  simp only [afterSelection_empty] at hmain
  refine ⟨_, hmain, rfl, ?_, ?_, rfl⟩
  · simp only [terminationRequests_append, terminationRequests_describe,
      terminationRequests_cons_log, terminationRequests_nil, List.append_nil]
  · simp only [slackMessages_append, slackMessages_describe, slackMessages_cons_log,
      slackMessages_nil, List.append_nil]

/-- Witness for C4 on `idleWorld`, where no instance is over age. -/
theorem main_idle_on_empty_selection_witness :
    ∃ run, main idleWorld 2 = some run ∧ run.exitCode = 0 ∧
      terminationRequests run.trace = [] ∧ slackMessages run.trace = [] ∧
      run.trace = [Event.log ("version: " ++ idleWorld.version)] ++
        [describeInput "vpc-1" "sg-1" none, describeInput "vpc-1" "sg-1" (some "page-2")].map
          Event.describeInstances ++
        [Event.log ("\nInstance IDs of running instances are: " ++ fmtStrings [])] :=
  main_idle_on_empty_selection idleWorld 2 sampleConfig
    { result := { ids := some [], err := none }
      calls := [describeInput "vpc-1" "sg-1" none, describeInput "vpc-1" "sg-1" (some "page-2")]
      ticks := 3 }
    sampleEnv_config rfl idleWorld_selection rfl

/-- C6: in a run in which the selection succeeds with a non-empty id list `ids`
and the termination call succeeds, whatever the two `slack.SendMessage` calls
return: `main` exits with status 0, issues exactly one termination request,
carrying `ids`, and attempts both the at-risk and the terminated notification;
and the run in which Slack answers differently (`send` in place of
`w.SendMessage`) makes the same provider calls, attempts the same messages and
has the same exit status. -/
theorem main_ignores_notification_outcomes (w : World) (fuel : Nat) (c : Config)
    (sel : SelectorRun) (ids : List String) (output : TerminateInstancesOutput)
    (send : Nat → String → String → String → Option Error)
    (hc : NewConfigFromEnvVars w.fracNanos w.env = .ok c) (hl : w.LoadDefaultConfig = none)
    (hs : GetIdsOfInstancesToTerminate w.ec2Client w.now c.GetVpcId c.GetSecurityGroupId
      c.GetEc2InstanceMaxLife fuel = some sel)
    (hids : sel.result = { ids := some ids, err := none }) (hne : ids ≠ [])
    (ht : w.ec2Client.TerminateInstances ids = .ok output) :
    ∃ run other, main w fuel = some run ∧
      main { w with SendMessage := send } fuel = some other ∧
      run.exitCode = 0 ∧
      terminationRequests run.trace = [ids] ∧
      slackMessages run.trace =
        [(c.GetSlackToken, c.GetSlackChannel, atRiskMessage ids),
          (c.GetSlackToken, c.GetSlackChannel,
            terminatedMessage (output.TerminatingInstances.map fun r => r.InstanceId))] ∧
      providerCalls run.trace =
        sel.calls.map Event.describeInstances ++ [Event.terminateInstances ids] ∧
      providerCalls other.trace = providerCalls run.trace ∧
      slackMessages other.trace = slackMessages run.trace ∧
      other.exitCode = run.exitCode := by
  have hmain := main_of_selection w fuel c sel hc hl hs
  have hother := main_of_selection { w with SendMessage := send } fuel c sel hc hl hs
  rw [hids] at hmain hother
  simp only [afterSelection_terminated w c _ ids output hne ht] at hmain
  simp only [afterSelection_terminated { w with SendMessage := send } c _ ids output hne ht]
    at hother
  refine ⟨_, _, hmain, hother, rfl, ?_, ?_, ?_, ?_, ?_, rfl⟩
  · simp only [terminationRequests_append, terminationRequests_describe,
      terminationRequests_cons_log, terminationRequests_cons_terminate,
      terminationRequests_sendAndLog, terminationRequests_logs, terminationRequests_nil,
      List.append_nil, List.nil_append]
  · simp only [slackMessages_append, slackMessages_describe, slackMessages_cons_log,
      slackMessages_cons_terminate, slackMessages_sendAndLog, slackMessages_logs,
      slackMessages_nil, List.append_nil, List.nil_append, List.singleton_append]
  · simp only [providerCalls_append, providerCalls_describe, providerCalls_cons_log,
      providerCalls_cons_terminate, providerCalls_sendAndLog, providerCalls_logs,
      providerCalls_nil, List.append_nil, List.nil_append]
  · simp only [providerCalls_append, providerCalls_describe, providerCalls_cons_log,
      providerCalls_cons_terminate, providerCalls_sendAndLog, providerCalls_logs,
      providerCalls_nil, List.append_nil, List.nil_append]
  · simp only [slackMessages_append, slackMessages_describe, slackMessages_cons_log,
      slackMessages_cons_terminate, slackMessages_sendAndLog, slackMessages_logs,
      slackMessages_nil, List.append_nil, List.nil_append, List.singleton_append]

/-- Witness for C6 on `busyWorld` (Slack down) against the same world with
Slack up. -/
theorem main_ignores_notification_outcomes_witness :
    ∃ run other, main busyWorld 2 = some run ∧
      main { busyWorld with SendMessage := slackUp } 2 = some other ∧
      run.exitCode = 0 ∧
      terminationRequests run.trace = [["i-0a1", "i-0b2", "i-0c3"]] ∧
      slackMessages run.trace =
        [(sampleConfig.GetSlackToken, sampleConfig.GetSlackChannel,
            atRiskMessage ["i-0a1", "i-0b2", "i-0c3"]),
          (sampleConfig.GetSlackToken, sampleConfig.GetSlackChannel,
            terminatedMessage ((acknowledgeAll ["i-0a1", "i-0b2", "i-0c3"]).TerminatingInstances.map
              fun r => r.InstanceId))] ∧
      providerCalls run.trace =
        [describeInput "vpc-1" "sg-1" none, describeInput "vpc-1" "sg-1" (some "page-2")].map
          Event.describeInstances ++ [Event.terminateInstances ["i-0a1", "i-0b2", "i-0c3"]] ∧
      providerCalls other.trace = providerCalls run.trace ∧
      slackMessages other.trace = slackMessages run.trace ∧
      other.exitCode = run.exitCode :=
  main_ignores_notification_outcomes busyWorld 2 sampleConfig
    { result := { ids := some ["i-0a1", "i-0b2", "i-0c3"], err := none }
      calls := [describeInput "vpc-1" "sg-1" none, describeInput "vpc-1" "sg-1" (some "page-2")]
      ticks := 3 }
    ["i-0a1", "i-0b2", "i-0c3"] (acknowledgeAll ["i-0a1", "i-0b2", "i-0c3"]) slackUp
    sampleEnv_config rfl (lateClock_selection twoPageClient rfl) rfl (by decide) rfl

/-- C7: in a run in which `GetIdsOfInstancesToTerminate` returns the error `e`,
`main` attempts exactly one Slack message, with the token and to the channel of
the configuration `c`, whose text is the escalation message and contains the
environment name of `c`, the context "Couldn't retrieve running instances" and
the text of `e`; it exits with status 1 whatever that send returned, and it
issues no termination request. -/
theorem main_escalates_selection_failure (w : World) (fuel : Nat) (c : Config)
    (sel : SelectorRun) (e : Error)
    (hc : NewConfigFromEnvVars w.fracNanos w.env = .ok c) (hl : w.LoadDefaultConfig = none)
    (hs : GetIdsOfInstancesToTerminate w.ec2Client w.now c.GetVpcId c.GetSecurityGroupId
      c.GetEc2InstanceMaxLife fuel = some sel)
    (herr : sel.result.err = some e) :
    ∃ run, main w fuel = some run ∧ run.exitCode = 1 ∧ run.exitCode ≠ 0 ∧
      slackMessages run.trace =
        [(c.slackToken, c.slackChannel,
          escalationMessage "Couldn't retrieve running instances" e c)] ∧
      Mentions (escalationMessage "Couldn't retrieve running instances" e c) c.environmentName ∧
      Mentions (escalationMessage "Couldn't retrieve running instances" e c)
        "Couldn't retrieve running instances" ∧
      Mentions (escalationMessage "Couldn't retrieve running instances" e c) e ∧
      terminationRequests run.trace = [] ∧
      providerCalls run.trace = sel.calls.map Event.describeInstances := by
  have hmain := main_of_selection w fuel c sel hc hl hs
  rw [herr] at hmain
  simp only [logAndExit] at hmain
  have hm := escalationMessage_mentions "Couldn't retrieve running instances" e c
  refine ⟨_, hmain, rfl, Nat.one_ne_zero, ?_, hm.1, hm.2.1, hm.2.2, ?_, ?_⟩
  · simp only [slackMessages_append, slackMessages_describe, slackMessages_cons_log,
      slackMessages_sendAndLog, slackMessages_nil, List.append_nil, List.nil_append,
      Config.GetSlackToken, Config.GetSlackChannel]
  · simp only [terminationRequests_append, terminationRequests_describe,
      terminationRequests_cons_log, terminationRequests_sendAndLog, terminationRequests_nil,
      List.append_nil]
  · simp only [providerCalls_append, providerCalls_describe, providerCalls_cons_log,
      providerCalls_sendAndLog, providerCalls_nil, List.append_nil, List.nil_append]

/-- Witness for C7 on `listingFailsWorld`, whose second listing request fails
while Slack is down. -/
theorem main_escalates_selection_failure_witness :
    ∃ run, main listingFailsWorld 2 = some run ∧ run.exitCode = 1 ∧ run.exitCode ≠ 0 ∧
      slackMessages run.trace =
        [(sampleConfig.slackToken, sampleConfig.slackChannel,
          escalationMessage "Couldn't retrieve running instances" "RequestTimeout" sampleConfig)] ∧
      Mentions (escalationMessage "Couldn't retrieve running instances" "RequestTimeout"
        sampleConfig) sampleConfig.environmentName ∧
      Mentions (escalationMessage "Couldn't retrieve running instances" "RequestTimeout"
        sampleConfig) "Couldn't retrieve running instances" ∧
      Mentions (escalationMessage "Couldn't retrieve running instances" "RequestTimeout"
        sampleConfig) "RequestTimeout" ∧
      terminationRequests run.trace = [] ∧
      providerCalls run.trace =
        [describeInput "vpc-1" "sg-1" none, describeInput "vpc-1" "sg-1" (some "page-2")].map
          Event.describeInstances :=
  main_escalates_selection_failure listingFailsWorld 2 sampleConfig
    { result := { ids := none, err := some "RequestTimeout" }
      calls := [describeInput "vpc-1" "sg-1" none, describeInput "vpc-1" "sg-1" (some "page-2")]
      ticks := 2 }
    "RequestTimeout" sampleEnv_config rfl failingClient_selection rfl

/-- C8: in a run in which the selection succeeds with a non-empty id list `ids`
and the termination call fails with `e`, the effects of `main` other than log
lines are, after the listing requests and in this order: the at-risk
notification, whose text is "Instance IDs of running instances are: " followed
by the ids between square brackets, separated by spaces, and so contains every
selected id; the termination request for `ids`; and the escalation message,
which contains the environment name, the context "Couldn't terminate
instances" and the text of `e`. The exit status is 1, and no Slack message of
the run is a terminated-ids notification. -/
theorem main_escalates_termination_failure (w : World) (fuel : Nat) (c : Config)
    (sel : SelectorRun) (ids : List String) (e : Error)
    (hc : NewConfigFromEnvVars w.fracNanos w.env = .ok c) (hl : w.LoadDefaultConfig = none)
    (hs : GetIdsOfInstancesToTerminate w.ec2Client w.now c.GetVpcId c.GetSecurityGroupId
      c.GetEc2InstanceMaxLife fuel = some sel)
    (hids : sel.result = { ids := some ids, err := none }) (hne : ids ≠ [])
    (ht : w.ec2Client.TerminateInstances ids = .error e) :
    ∃ run, main w fuel = some run ∧ run.exitCode = 1 ∧ run.exitCode ≠ 0 ∧
      outward run.trace =
        sel.calls.map Event.describeInstances ++
          [Event.slackSendMessage c.slackToken c.slackChannel (atRiskMessage ids),
            Event.terminateInstances ids,
            Event.slackSendMessage c.slackToken c.slackChannel
              (escalationMessage "Couldn't terminate instances" e c)] ∧
      atRiskMessage ids =
        "Instance IDs of running instances are: " ++ ("[" ++ " ".intercalate ids ++ "]") ∧
      (∀ id ∈ ids, Mentions (atRiskMessage ids) id) ∧
      Mentions (escalationMessage "Couldn't terminate instances" e c) c.environmentName ∧
      Mentions (escalationMessage "Couldn't terminate instances" e c)
        "Couldn't terminate instances" ∧
      Mentions (escalationMessage "Couldn't terminate instances" e c) e ∧
      ∀ m ∈ slackMessages run.trace, ∀ ids', m.2.2 ≠ terminatedMessage ids' := by
  have hmain := main_of_selection w fuel c sel hc hl hs
  rw [hids] at hmain
  simp only [afterSelection_refused w c _ ids e hne ht] at hmain
  have hm := escalationMessage_mentions "Couldn't terminate instances" e c
  refine ⟨_, hmain, rfl, Nat.one_ne_zero, ?_, rfl, atRiskMessage_mentions ids,
    hm.1, hm.2.1, hm.2.2, ?_⟩
  · simp only [outward_append, outward_describe, outward_cons_log, outward_cons_terminate,
      outward_sendAndLog, outward_nil, List.append_nil, List.nil_append,
      List.singleton_append, Config.GetSlackToken, Config.GetSlackChannel, List.append_assoc]
  · intro m hmem ids'
    simp only [slackMessages_append, slackMessages_describe, slackMessages_cons_log,
      slackMessages_cons_terminate, slackMessages_sendAndLog, slackMessages_nil,
      List.append_nil, List.nil_append, List.singleton_append, List.mem_cons,
      List.mem_singleton, List.not_mem_nil, or_false] at hmem
    rcases hmem with h | h
    · rw [h]; exact atRiskMessage_ne_terminatedMessage ids ids'
    · rw [h]; exact escalationMessage_ne_terminatedMessage _ e c ids'

/-- Witness for C8 on `terminationFailsWorld`. -/
theorem main_escalates_termination_failure_witness :
    ∃ run, main terminationFailsWorld 2 = some run ∧ run.exitCode = 1 ∧ run.exitCode ≠ 0 ∧
      outward run.trace =
        [describeInput "vpc-1" "sg-1" none, describeInput "vpc-1" "sg-1" (some "page-2")].map
            Event.describeInstances ++
          [Event.slackSendMessage sampleConfig.slackToken sampleConfig.slackChannel
              (atRiskMessage ["i-0a1", "i-0b2", "i-0c3"]),
            Event.terminateInstances ["i-0a1", "i-0b2", "i-0c3"],
            Event.slackSendMessage sampleConfig.slackToken sampleConfig.slackChannel
              (escalationMessage "Couldn't terminate instances" "UnauthorizedOperation"
                sampleConfig)] ∧
      atRiskMessage ["i-0a1", "i-0b2", "i-0c3"] =
        "Instance IDs of running instances are: " ++
          ("[" ++ " ".intercalate ["i-0a1", "i-0b2", "i-0c3"] ++ "]") ∧
      (∀ id ∈ ["i-0a1", "i-0b2", "i-0c3"],
        Mentions (atRiskMessage ["i-0a1", "i-0b2", "i-0c3"]) id) ∧
      Mentions (escalationMessage "Couldn't terminate instances" "UnauthorizedOperation"
        sampleConfig) sampleConfig.environmentName ∧
      Mentions (escalationMessage "Couldn't terminate instances" "UnauthorizedOperation"
        sampleConfig) "Couldn't terminate instances" ∧
      Mentions (escalationMessage "Couldn't terminate instances" "UnauthorizedOperation"
        sampleConfig) "UnauthorizedOperation" ∧
      ∀ m ∈ slackMessages run.trace, ∀ ids', m.2.2 ≠ terminatedMessage ids' :=
  main_escalates_termination_failure terminationFailsWorld 2 sampleConfig
    { result := { ids := some ["i-0a1", "i-0b2", "i-0c3"], err := none }
      calls := [describeInput "vpc-1" "sg-1" none, describeInput "vpc-1" "sg-1" (some "page-2")]
      ticks := 3 }
    ["i-0a1", "i-0b2", "i-0c3"] "UnauthorizedOperation" sampleEnv_config rfl
    (lateClock_selection refusingClient rfl) rfl (by decide) rfl

/-! ## The configuration: claims C9, C10 -/

/-- C9, as stated, fails: `blankEnv` sets every required variable to the empty
string and `EC2_INSTANCE_MAX_LIFE` to `-5m`; `NewConfigFromEnvVars` succeeds on
it, and the Config it returns has all seven required fields empty and a
negative max life. -/
theorem config_loads_empty_fields_and_negative_max_life :
    NewConfigFromEnvVars float64FracNanos blankEnv = .ok blankConfig ∧
      blankConfig.awsRegion = "" ∧ blankConfig.awsAccessKeyId = "" ∧
      blankConfig.awsSecretAccessKey = "" ∧ blankConfig.slackToken = "" ∧
      blankConfig.slackChannel = "" ∧ blankConfig.vpcId = "" ∧
      blankConfig.securityGroupId = "" ∧ ¬ (0 < blankConfig.ec2InstanceMaxLife) :=
  ⟨blankEnv_config, rfl, rfl, rfl, rfl, rfl, rfl, rfl, by decide⟩

/-- C9 (amended): on every environment on which `NewConfigFromEnvVars`
succeeds, each of the seven required variables is set and the matching field of
the returned Config equals its value (which may be the empty string), and
`ec2InstanceMaxLife` is the value `time.ParseDuration` gives for
`EC2_INSTANCE_MAX_LIFE`, or for "30m" when that is unset: a duration in the
`int64` range, of any sign. -/
theorem config_fields_are_env_values (fracNanos : FracNanos) (env : Env) (c : Config)
    (h : NewConfigFromEnvVars fracNanos env = .ok c) :
    env AWS_REGION_ENV_VAR = some c.awsRegion ∧
      env AWS_ACCESS_KEY_ID_ENV_VAR = some c.awsAccessKeyId ∧
      env AWS_SECRET_ACCESS_KEY_ENV_VAR = some c.awsSecretAccessKey ∧
      env SLACK_TOKEN_ENV_VAR = some c.slackToken ∧
      env SLACK_CHANNEL_ENV_VAR = some c.slackChannel ∧
      env VPC_ID_ENV_VAR = some c.vpcId ∧
      env SECURITY_GROUP_ID_ENV_VAR = some c.securityGroupId ∧
      ParseDuration fracNanos
        ((env EC2_INSTANCE_MAX_LIFE_ENV_VAR).getD DEFAULT_EC2_INSTANCE_MAX_LIFE) =
          .ok c.ec2InstanceMaxLife ∧
      minDuration ≤ c.ec2InstanceMaxLife ∧ c.ec2InstanceMaxLife ≤ maxDuration := by
  obtain ⟨h1, h2, h3, h4, h5, h6, h7, _, h9⟩ := NewConfigFromEnvVars_ok fracNanos env c h
  have hp := getEc2InstanceMaxLife_eq fracNanos env _ h9
  have hb := ParseDuration_bounds fracNanos _ _ hp
  exact ⟨h1, h2, h3, h4, h5, h6, h7, hp, hb.1, hb.2⟩

/-- Witness for C9 (amended) on `sampleEnv`. -/
theorem config_fields_are_env_values_witness :
    sampleEnv AWS_REGION_ENV_VAR = some sampleConfig.awsRegion ∧
      sampleEnv AWS_ACCESS_KEY_ID_ENV_VAR = some sampleConfig.awsAccessKeyId ∧
      sampleEnv AWS_SECRET_ACCESS_KEY_ENV_VAR = some sampleConfig.awsSecretAccessKey ∧
      sampleEnv SLACK_TOKEN_ENV_VAR = some sampleConfig.slackToken ∧
      sampleEnv SLACK_CHANNEL_ENV_VAR = some sampleConfig.slackChannel ∧
      sampleEnv VPC_ID_ENV_VAR = some sampleConfig.vpcId ∧
      sampleEnv SECURITY_GROUP_ID_ENV_VAR = some sampleConfig.securityGroupId ∧
      ParseDuration float64FracNanos
        ((sampleEnv EC2_INSTANCE_MAX_LIFE_ENV_VAR).getD DEFAULT_EC2_INSTANCE_MAX_LIFE) =
          .ok sampleConfig.ec2InstanceMaxLife ∧
      minDuration ≤ sampleConfig.ec2InstanceMaxLife ∧
      sampleConfig.ec2InstanceMaxLife ≤ maxDuration :=
  config_fields_are_env_values float64FracNanos sampleEnv sampleConfig sampleEnv_config

/-- C10: on every environment in which the seven required variables are set,
a Config that `NewConfigFromEnvVars` loads has the environment name
"Production" when `ENVIRONMENT_NAME` is unset and the value of that variable
(the empty string included) when it is set; and when `EC2_INSTANCE_MAX_LIFE` is
unset the load succeeds and the max life of the Config is 1 800 000 000 000
nanoseconds, the parse of "30m". -/
theorem config_defaults (fracNanos : FracNanos) (env : Env)
    (h1 : (env AWS_REGION_ENV_VAR).isSome = true)
    (h2 : (env AWS_ACCESS_KEY_ID_ENV_VAR).isSome = true)
    (h3 : (env AWS_SECRET_ACCESS_KEY_ENV_VAR).isSome = true)
    (h4 : (env SLACK_TOKEN_ENV_VAR).isSome = true)
    (h5 : (env SLACK_CHANNEL_ENV_VAR).isSome = true)
    (h6 : (env VPC_ID_ENV_VAR).isSome = true)
    (h7 : (env SECURITY_GROUP_ID_ENV_VAR).isSome = true) :
    (∀ c, NewConfigFromEnvVars fracNanos env = .ok c →
        (env ENVIRONMENT_NAME_ENV_VAR = none → c.environmentName = "Production") ∧
          ∀ v, env ENVIRONMENT_NAME_ENV_VAR = some v → c.environmentName = v) ∧
      (env EC2_INSTANCE_MAX_LIFE_ENV_VAR = none →
        ParseDuration fracNanos "30m" = .ok 1800000000000 ∧
          ∃ c, NewConfigFromEnvVars fracNanos env = .ok c ∧
            c.ec2InstanceMaxLife = 1800000000000 ∧ 1800000000000 = 30 * 60 * (10 : Int) ^ 9) := by
  refine ⟨?_, ?_⟩
  · intro c hc
    have hn := (NewConfigFromEnvVars_ok fracNanos env c hc).2.2.2.2.2.2.2.1
    refine ⟨?_, ?_⟩
    · intro hnone
      rw [hn]; simp only [getEnvironmentName, hnone]; rfl
    · intro v hv
      rw [hn]; simp only [getEnvironmentName, hv]
  · intro hnone
    obtain ⟨a1, e1⟩ := Option.isSome_iff_exists.mp h1
    obtain ⟨a2, e2⟩ := Option.isSome_iff_exists.mp h2
    obtain ⟨a3, e3⟩ := Option.isSome_iff_exists.mp h3
    obtain ⟨a4, e4⟩ := Option.isSome_iff_exists.mp h4
    obtain ⟨a5, e5⟩ := Option.isSome_iff_exists.mp h5
    obtain ⟨a6, e6⟩ := Option.isSome_iff_exists.mp h6
    obtain ⟨a7, e7⟩ := Option.isSome_iff_exists.mp h7
    have hml : getEc2InstanceMaxLife fracNanos env = .ok 1800000000000 := by
      simp only [getEc2InstanceMaxLife, hnone, ParseDuration_default]
    exact ⟨ParseDuration_default fracNanos,
      _, NewConfigFromEnvVars_of_set fracNanos env a1 a2 a3 a4 a5 a6 a7 _ e1 e2 e3 e4 e5 e6 e7 hml,
      rfl, by norm_num⟩

/-- Witness for C10 on `sampleEnv`, in which both optional variables are
unset. -/
theorem config_defaults_witness :
    (∀ c, NewConfigFromEnvVars float64FracNanos sampleEnv = .ok c →
        (sampleEnv ENVIRONMENT_NAME_ENV_VAR = none → c.environmentName = "Production") ∧
          ∀ v, sampleEnv ENVIRONMENT_NAME_ENV_VAR = some v → c.environmentName = v) ∧
      (sampleEnv EC2_INSTANCE_MAX_LIFE_ENV_VAR = none →
        ParseDuration float64FracNanos "30m" = .ok 1800000000000 ∧
          ∃ c, NewConfigFromEnvVars float64FracNanos sampleEnv = .ok c ∧
            c.ec2InstanceMaxLife = 1800000000000 ∧ 1800000000000 = 30 * 60 * (10 : Int) ^ 9) :=
  config_defaults float64FracNanos sampleEnv rfl rfl rfl rfl rfl rfl rfl

end Ec2Killer
